import Mathlib

/-! Shallow embedding of the ERC-8004 subgraph event handlers
(`src/identity-registry.ts`, `src/reputation-registry.ts`,
`src/utils/registration-parser.ts` and the registration file data-source
handler) together with proofs about the incremental aggregation engine.

Modelling conventions:
* graph-ts `BigInt` is modelled as `Int`, `BigDecimal` as `ℚ` (exact decimal
  arithmetic), `i32` scores as `Int`.
* `Bytes` values are modelled by their hex string (`toHexString`), which is
  injective, so string equality coincides with byte equality.
* The host entity store is a per-entity table `String → Option α`;
  `Entity.load` is application and `entity.save()` is `Table.save`.
* External collaborators that the specification places out of scope
  (chain/contract configuration lookup, URI-scheme classification,
  `bytes32ToString`) are parameters collected in `Config`.
* The deployment chain id returned by `getChainId()` is passed to each
  handler as its `chainId` argument.
-/

abbrev Table (α : Type) : Type := String → Option α

def Table.empty {α : Type} : Table α := fun _ => none

def Table.save {α : Type} (t : Table α) (k : String) (v : α) : Table α :=
  fun q => if q = k then some v else t q

/-- `Agent` entity of the schema, as mutated by `identity-registry.ts`. -/
structure Agent where
  chainId : Int
  agentId : Int
  owner : String
  agentURI : String
  agentURIType : String
  operators : List String
  totalFeedback : Int
  createdAt : Int
  updatedAt : Int
  lastActivity : Int
  registrationFile : Option String
deriving DecidableEq

/-- `Feedback` entity, created by `handleNewFeedback`. -/
structure Feedback where
  agent : String
  clientAddress : String
  score : Int
  tag1 : Option String
  tag2 : Option String
  feedbackUri : String
  feedbackURIType : String
  feedbackHash : String
  isRevoked : Bool
  createdAt : Int
  revokedAt : Option Int
  feedbackFile : Option String
deriving DecidableEq

/-- `FeedbackResponse` entity, created by `handleResponseAppended`. -/
structure FeedbackResponse where
  feedback : String
  responder : String
  responseUri : String
  responseHash : String
  createdAt : Int
deriving DecidableEq

/-- `AgentMetadata` entity, created by `handleMetadataSet`. -/
structure AgentMetadata where
  agent : String
  key : String
  value : String
  updatedAt : Int
deriving DecidableEq

/-- `AgentStats` entity. `scoreDistribution` is the five-bucket histogram
`[0-20, 21-40, 41-60, 61-80, 81-100]` stored as a function on `Fin 5`. -/
structure AgentStats where
  agent : String
  totalFeedback : Int
  averageScore : ℚ
  scoreDistribution : Fin 5 → Int
  totalValidations : Int
  completedValidations : Int
  averageValidationScore : ℚ
  lastActivity : Int
  updatedAt : Int

/-- `Protocol` entity: one per supported chain, keyed by the decimal chain id. -/
structure Protocol where
  chainId : Int
  name : String
  identityRegistry : String
  reputationRegistry : String
  validationRegistry : String
  totalAgents : Int
  totalFeedback : Int
  totalValidations : Int
  agents : List String
  tags : List String
  updatedAt : Int
deriving DecidableEq

/-- `GlobalStats` singleton (stored under the fixed key `"global"`; modelled
as an `Option` since only that one key is ever used). -/
structure GlobalStats where
  totalAgents : Int
  totalFeedback : Int
  totalValidations : Int
  totalProtocols : Int
  agents : List String
  tags : List String
  updatedAt : Int
deriving DecidableEq

/-- Configuration and URI-classification collaborators that the spec marks
as external (`contract-addresses.ts`, `utils/ipfs.ts`, `utils/arweave.ts`). -/
structure Config where
  isSupportedChain : Int → Bool
  getChainName : Int → String
  identityRegistryAddress : Int → String
  reputationRegistryAddress : Int → String
  validationRegistryAddress : Int → String
  determineUriType : String → String
  isIpfsUri : String → Bool
  extractIpfsHash : String → String
  isArweaveUri : String → Bool
  extractArweaveTxId : String → String
  bytes32ToString : String → Option String

/-- The durable record store: one table per entity type. -/
structure Store where
  agents : Table Agent
  feedbacks : Table Feedback
  responses : Table FeedbackResponse
  metadatas : Table AgentMetadata
  agentStats : Table AgentStats
  protocols : Table Protocol
  globalStats : Option GlobalStats

def emptyStore : Store :=
  { agents := Table.empty, feedbacks := Table.empty, responses := Table.empty,
    metadatas := Table.empty, agentStats := Table.empty, protocols := Table.empty,
    globalStats := none }

/-- Observable side effects of a handler run, in program order: saves of the
primary entities (Agent / Feedback) and file data-source creations
(`Template.createWithContext`), which schedule the off-chain fetch. -/
inductive Effect where
  | saveAgent (key : String) (a : Agent)
  | saveFeedback (key : String) (f : Feedback)
  | fetchRequest (cid : String) (fileKey : String)

/-- Agent entity id: `chainId:agentId` (template literal used by every handler). -/
def mkAgentKey (chainId agentId : Int) : String :=
  toString chainId ++ ":" ++ toString agentId

/-- Feedback entity id: `chainId:agentId:clientAddress:index`. -/
def mkFeedbackKey (chainId agentId : Int) (clientAddress : String) (feedbackIndex : Int) : String :=
  mkAgentKey chainId agentId ++ ":" ++ clientAddress ++ ":" ++ toString feedbackIndex

/-- Hex string of the all-zero 32-byte tag value. -/
def zeroTagHex : String :=
  "0x0000000000000000000000000000000000000000000000000000000000000000"

/-- Hex string of the zero address. -/
def zeroAddressHex : String := "0x0000000000000000000000000000000000000000"

/-- Tag insertion used (twice, identically) by `updateProtocolStats` and the
global-stats section of `handleNewFeedback`: skip the all-zero tag, then
push only when not already included. -/
def addTagIfNew (tags : List String) (tag : String) : List String :=
  if tag ≠ zeroTagHex then
    (if tags.contains tag then tags else tags ++ [tag])
  else tags

/-- Fresh `GlobalStats` as initialized by the handlers. -/
def freshGlobalStats : GlobalStats :=
  { totalAgents := 0, totalFeedback := 0, totalValidations := 0, totalProtocols := 0,
    agents := [], tags := [], updatedAt := 0 }

/-- Fresh `Protocol` record as initialized by both registries'
`updateProtocolStats` (chain name and registry addresses pulled from the
static chain configuration). -/
def freshProtocol (cfg : Config) (chainId : Int) : Protocol :=
  { chainId := chainId, name := cfg.getChainName chainId,
    identityRegistry := cfg.identityRegistryAddress chainId,
    reputationRegistry := cfg.reputationRegistryAddress chainId,
    validationRegistry := cfg.validationRegistryAddress chainId,
    totalAgents := 0, totalFeedback := 0, totalValidations := 0,
    agents := [], tags := [], updatedAt := 0 }

/-- Histogram bucket chosen by `updateAgentStats`
(`score<=20` bucket 0, `score<=40` bucket 1, ..., else bucket 4). -/
def bucketIndex (score : Int) : Fin 5 :=
  if score ≤ 20 then 0
  else if score ≤ 40 then 1
  else if score ≤ 60 then 2
  else if score ≤ 80 then 3
  else 4

/-- File id computed by the chain-side handlers when scheduling a fetch
(`identity-registry.ts` and `reputation-registry.ts`): the template literal
joining the transaction hash and the content id with a colon. -/
def schedulingFileId (txHash cid : String) : String := txHash ++ ":" ++ cid

/-- File id recomputed independently by the isolated file data-source handler
(`parseRegistrationFile`) from its context `txHash` and `dataSource`
string parameter, and used as the stored record's key. -/
def parsingFileId (txHash cid : String) : String := txHash ++ ":" ++ cid

/-- Decimal value of a digit string (most significant first). -/
def decNatOfChars (cs : List Char) : Nat :=
  cs.foldl (fun n c => n * 10 + (c.toNat - 48)) 0

/-- Model of graph-ts `BigInt.fromString` on the decimal strings the parser
feeds it (an external library function; on such strings it is ordinary
arbitrary-precision decimal parsing, with an optional leading minus). -/
def bigIntFromString (str : String) : Int :=
  match str.data with
  | '-' :: rest => -(decNatOfChars rest : Int)
  | cs => (decNatOfChars cs : Int)

/-- Character-level splitter: model of the JavaScript `string.split` with a
single-character separator (splitting never drops empty segments). -/
def splitOnCharAux (sep : Char) : List Char → List Char → List (List Char)
  | [], acc => [acc.reverse]
  | c :: rest, acc =>
      if c = sep then acc.reverse :: splitOnCharAux sep rest []
      else splitOnCharAux sep rest (c :: acc)

/-- `s.split(sep)` of AssemblyScript, for a one-character separator. -/
def strSplit (s : String) (sep : Char) : List String :=
  (splitOnCharAux sep s.data []).map fun cs => String.mk cs

/-- `s.startsWith(p)` of AssemblyScript. -/
def strStartsWith (s p : String) : Bool := p.data.isPrefixOf s.data

/-- Output fields of the `agentWallet` endpoint branch. -/
structure WalletFields where
  agentWallet : Option String
  agentWalletChainId : Option Int
deriving DecidableEq

/-- The `agentWallet` endpoint branch of `parseRegistrationJSON`
(`registration-parser.ts` lines 183-204), as a function of the endpoint
string. Accepts either a colon-delimited `eip155:...` form (third part must
start with `0x` and have length 42; chain id taken from the second part when
non-empty) or a bare 42-character `0x`-prefixed address. -/
def parseAgentWallet (walletStr : String) : WalletFields :=
  if strStartsWith walletStr "eip155:" = true then
    let parts := strSplit walletStr ':'
    if 2 < parts.length then
      let addressPart := parts.getD 2 ""
      if strStartsWith addressPart "0x" = true ∧ addressPart.length = 42 then
        let chainIdPart := parts.getD 1 ""
        { agentWallet := some addressPart,
          agentWalletChainId :=
            if 0 < chainIdPart.length then some (bigIntFromString chainIdPart) else none }
      else { agentWallet := none, agentWalletChainId := none }
    else { agentWallet := none, agentWalletChainId := none }
  else if strStartsWith walletStr "0x" = true ∧ walletStr.length = 42 then
    { agentWallet := some walletStr, agentWalletChainId := none }
  else { agentWallet := none, agentWalletChainId := none }

/-- One classify-and-fetch block of `handleAgentRegistered` (the IPFS and
Arweave blocks, lines 78-97 and 100-119, are textually identical up to the
classifier and extractor used, so they are embedded as two instances of
this definition): guard on a non-empty URI accepted by the classifier and a
non-empty extracted content id, create the file data source, then set and
save the `registrationFile` link. -/
def registerFileBranch (check : String → Bool) (extract : String → String)
    (agentEntityId tokenURI txHash : String) (agent : Agent) (s : Store)
    (tr : List Effect) : Store × Agent × List Effect :=
  if 0 < tokenURI.length ∧ check tokenURI = true then
    let cid := extract tokenURI
    if 0 < cid.length then
      let fileId := schedulingFileId txHash cid
      let agent1 := { agent with registrationFile := some fileId }
      (({ s with agents := s.agents.save agentEntityId agent1 } : Store), agent1,
        tr ++ [Effect.fetchRequest cid fileId, Effect.saveAgent agentEntityId agent1])
    else (s, agent, tr)
  else (s, agent, tr)

/-- One classify-and-fetch block of `handleUriUpdated` (lines 168-190 and
193-214): additionally re-types and re-saves the agent before extracting
the content id, and has no emptiness guard on the URI itself. -/
def uriFileBranch (check : String → Bool) (extract : String → String) (typeName : String)
    (agentEntityId newUri txHash : String) (agent : Agent) (s : Store)
    (tr : List Effect) : Store × Agent × List Effect :=
  if check newUri = true then
    let agent1 := { agent with agentURIType := typeName }
    let s1 := { s with agents := s.agents.save agentEntityId agent1 }
    let tr1 := tr ++ [Effect.saveAgent agentEntityId agent1]
    let cid := extract newUri
    if 0 < cid.length then
      let fileId := schedulingFileId txHash cid
      let agent2 := { agent1 with registrationFile := some fileId }
      (({ s1 with agents := s1.agents.save agentEntityId agent2 } : Store), agent2,
        tr1 ++ [Effect.fetchRequest cid fileId, Effect.saveAgent agentEntityId agent2])
    else (s1, agent1, tr1)
  else (s, agent, tr)

namespace IdentityRegistry

/-- `updateProtocolStats` of `identity-registry.ts` (lines 308-363):
lazily creates the `Protocol` record, increments `totalAgents`, appends the
agent id unconditionally, and — only on first creation — increments the
global protocol counter. -/
def updateProtocolStats (cfg : Config) (chainId : Int) (agentKey : String)
    (timestamp : Int) (s : Store) : Store :=
  if cfg.isSupportedChain chainId = true then
    let protocolId := toString chainId
    let loaded := s.protocols protocolId
    let protocol := loaded.getD (freshProtocol cfg chainId)
    let isNewProtocol := loaded.isNone
    let protocol := { protocol with
      totalAgents := protocol.totalAgents + 1,
      agents := protocol.agents ++ [agentKey],
      updatedAt := timestamp }
    let s := { s with protocols := s.protocols.save protocolId protocol }
    if isNewProtocol then
      let g := s.globalStats.getD freshGlobalStats
      let g := { g with totalProtocols := g.totalProtocols + 1, updatedAt := timestamp }
      { s with globalStats := some g }
    else s
  else s

/-- `handleAgentRegistered` (lines 27-122). Note the duplicated
`updateProtocolStats` call (source lines 54-55) and that the file
data-source is created before the `registrationFile` link is saved. -/
def handleAgentRegistered (cfg : Config) (chainId agentId : Int)
    (owner tokenURI txHash : String) (timestamp : Int) (s : Store) :
    Store × List Effect :=
  let agentEntityId := mkAgentKey chainId agentId
  let agent :=
    match s.agents agentEntityId with
    | some a => a
    | none =>
        { chainId := chainId, agentId := agentId, owner := "", agentURI := "",
          agentURIType := "", operators := [], totalFeedback := 0,
          createdAt := timestamp, updatedAt := 0, lastActivity := timestamp,
          registrationFile := none }
  let agent := { agent with
    owner := owner, agentURI := tokenURI,
    agentURIType := cfg.determineUriType tokenURI, updatedAt := timestamp }
  let s := { s with agents := s.agents.save agentEntityId agent }
  let tr := [Effect.saveAgent agentEntityId agent]
  let s := updateProtocolStats cfg chainId agentEntityId timestamp s
  let s := updateProtocolStats cfg chainId agentEntityId timestamp s
  let g := s.globalStats.getD freshGlobalStats
  let g := { g with
    totalAgents := g.totalAgents + 1,
    agents := g.agents ++ [agentEntityId],
    updatedAt := timestamp }
  let s := { s with globalStats := some g }
  let ipfsRes :=
    registerFileBranch cfg.isIpfsUri cfg.extractIpfsHash agentEntityId tokenURI txHash
      agent s tr
  let arweaveRes :=
    registerFileBranch cfg.isArweaveUri cfg.extractArweaveTxId agentEntityId tokenURI txHash
      ipfsRes.2.1 ipfsRes.1 ipfsRes.2.2
  (arweaveRes.1, arweaveRes.2.2)

/-- `handleMetadataSet` (lines 124-151): requires an existing agent;
the metadata key omits the chain id (`agentId:key`, as in the source). -/
def handleMetadataSet (chainId agentId : Int) (key value : String)
    (timestamp : Int) (s : Store) : Store :=
  let agentEntityId := mkAgentKey chainId agentId
  match s.agents agentEntityId with
  | none => s
  | some agent =>
      let metadataId := toString agentId ++ ":" ++ key
      let metadata : AgentMetadata :=
        { agent := agentEntityId, key := key, value := value, updatedAt := timestamp }
      let s := { s with metadatas := s.metadatas.save metadataId metadata }
      let agent := { agent with updatedAt := timestamp }
      { s with agents := s.agents.save agentEntityId agent }

/-- `handleUriUpdated` (lines 153-217): updates the URI, then re-runs the
classify-and-fetch logic (again creating the file data source before the
link save). -/
def handleUriUpdated (cfg : Config) (chainId agentId : Int)
    (newUri txHash : String) (timestamp : Int) (s : Store) :
    Store × List Effect :=
  let agentEntityId := mkAgentKey chainId agentId
  match s.agents agentEntityId with
  | none => (s, [])
  | some agent =>
      let agent := { agent with agentURI := newUri, updatedAt := timestamp }
      let s := { s with agents := s.agents.save agentEntityId agent }
      let tr := [Effect.saveAgent agentEntityId agent]
      let ipfsRes :=
        uriFileBranch cfg.isIpfsUri cfg.extractIpfsHash "ipfs" agentEntityId newUri txHash
          agent s tr
      let arweaveRes :=
        uriFileBranch cfg.isArweaveUri cfg.extractArweaveTxId "arweave" agentEntityId newUri
          txHash ipfsRes.2.1 ipfsRes.1 ipfsRes.2.2
      (arweaveRes.1, arweaveRes.2.2)

/-- `handleTransfer` (lines 219-248): the mint transfer (from the zero
address) is ignored; otherwise requires an existing agent. -/
def handleTransfer (chainId : Int) (fromAddr toAddr : String) (tokenId : Int)
    (timestamp : Int) (s : Store) : Store :=
  if fromAddr = zeroAddressHex then s
  else
    let agentEntityId := mkAgentKey chainId tokenId
    match s.agents agentEntityId with
    | none => s
    | some agent =>
        let agent := { agent with owner := toAddr, updatedAt := timestamp }
        { s with agents := s.agents.save agentEntityId agent }

/-- `handleApproval` (lines 250-293): a non-zero approved address is
appended only if not already present (loop comparing hex strings);
the zero address filters every matching entry out. -/
def handleApproval (chainId tokenId : Int) (approved : String)
    (timestamp : Int) (s : Store) : Store :=
  let agentEntityId := mkAgentKey chainId tokenId
  match s.agents agentEntityId with
  | none => s
  | some agent =>
      let operators := agent.operators
      let operators :=
        if approved ≠ zeroAddressHex then
          (if operators.contains approved then operators else operators ++ [approved])
        else operators.filter (fun op => op ≠ approved)
      let agent := { agent with operators := operators, updatedAt := timestamp }
      { s with agents := s.agents.save agentEntityId agent }

/-- `handleApprovalForAll` (lines 295-306): observability only, no mutation. -/
def handleApprovalForAll (s : Store) : Store := s

end IdentityRegistry

namespace ReputationRegistry

/-- `updateAgentStats` of `reputation-registry.ts` (lines 229-280):
increments the agent's and the stats' feedback counters, bumps the
histogram bucket of the score, and applies the incremental running-mean
formula `newMean = (oldMean * (n-1) + x) / n` with `n` the post-increment
count. -/
def updateAgentStats (agentKey : String) (agent : Agent) (score : Int)
    (timestamp : Int) (s : Store) : Store :=
  let agent := { agent with
    totalFeedback := agent.totalFeedback + 1,
    lastActivity := timestamp, updatedAt := timestamp }
  let s := { s with agents := s.agents.save agentKey agent }
  let stats :=
    match s.agentStats agentKey with
    | some st => st
    | none =>
        { agent := agentKey, totalFeedback := 0, averageScore := 0,
          scoreDistribution := fun _ => 0, totalValidations := 0,
          completedValidations := 0, averageValidationScore := 0,
          lastActivity := timestamp, updatedAt := 0 }
  let stats := { stats with totalFeedback := stats.totalFeedback + 1 }
  let idx := bucketIndex score
  let stats := { stats with
    scoreDistribution :=
      Function.update stats.scoreDistribution idx (stats.scoreDistribution idx + 1) }
  let totalScore := stats.averageScore * ((stats.totalFeedback - 1 : Int) : ℚ)
  let newTotalScore := totalScore + (score : ℚ)
  let stats := { stats with
    averageScore := newTotalScore / ((stats.totalFeedback : Int) : ℚ),
    lastActivity := timestamp, updatedAt := timestamp }
  { s with agentStats := s.agentStats.save agentKey stats }

/-- `updateAgentStatsAfterRevocation` (lines 282-298): decrements the two
feedback counters; average and histogram are deliberately not recomputed. -/
def updateAgentStatsAfterRevocation (agentKey : String) (agent : Agent)
    (timestamp : Int) (s : Store) : Store :=
  let agent := { agent with totalFeedback := agent.totalFeedback - 1, updatedAt := timestamp }
  let s := { s with agents := s.agents.save agentKey agent }
  match s.agentStats agentKey with
  | none => s
  | some stats =>
      let stats := { stats with totalFeedback := stats.totalFeedback - 1, updatedAt := timestamp }
      { s with agentStats := s.agentStats.save agentKey stats }

/-- `updateProtocolStats` of `reputation-registry.ts` (lines 307-361):
lazily creates the `Protocol` record, increments its feedback counter and
adds the non-zero tags; unlike the identity-registry variant it never
touches `GlobalStats.totalProtocols`. -/
def updateProtocolStats (cfg : Config) (chainId : Int) (timestamp : Int)
    (tag1 tag2 : String) (s : Store) : Store :=
  if cfg.isSupportedChain chainId = true then
    let protocolId := toString chainId
    let protocol := (s.protocols protocolId).getD (freshProtocol cfg chainId)
    let protocol := { protocol with
      totalFeedback := protocol.totalFeedback + 1,
      tags := addTagIfNew (addTagIfNew protocol.tags tag1) tag2,
      updatedAt := timestamp }
    { s with protocols := s.protocols.save protocolId protocol }
  else s

/-- The mutually exclusive IPFS / Arweave file branches of
`handleNewFeedback` (lines 67-112): create the file data source, then set
and save the `feedbackFile` link. -/
def scheduleFeedbackFetch (cfg : Config) (feedbackId txHash feedbackUri : String)
    (feedback : Feedback) (s : Store) : Store × List Effect :=
  if 0 < feedbackUri.length ∧ cfg.isIpfsUri feedbackUri = true then
    let ipfsHash := cfg.extractIpfsHash feedbackUri
    if 0 < ipfsHash.length then
      let fileId := schedulingFileId txHash ipfsHash
      let feedback1 := { feedback with feedbackFile := some fileId }
      (({ s with feedbacks := s.feedbacks.save feedbackId feedback1 } : Store),
        [Effect.fetchRequest ipfsHash fileId, Effect.saveFeedback feedbackId feedback1])
    else (s, [])
  else if 0 < feedbackUri.length ∧ cfg.isArweaveUri feedbackUri = true then
    let arweaveTxId := cfg.extractArweaveTxId feedbackUri
    if 0 < arweaveTxId.length then
      let fileId := schedulingFileId txHash arweaveTxId
      let feedback1 := { feedback with feedbackFile := some fileId }
      (({ s with feedbacks := s.feedbacks.save feedbackId feedback1 } : Store),
        [Effect.fetchRequest arweaveTxId fileId, Effect.saveFeedback feedbackId feedback1])
    else (s, [])
  else (s, [])

/-- `handleNewFeedback` (lines 29-165): requires an existing agent, creates
the `Feedback` entity with sequence number `agent.totalFeedback + 1`,
schedules at most one off-chain fetch, then updates agent, protocol and
global statistics. -/
def handleNewFeedback (cfg : Config) (chainId agentId : Int)
    (clientAddress : String) (score : Int)
    (tag1 tag2 feedbackUri feedbackHash txHash : String) (timestamp : Int)
    (s : Store) : Store × List Effect :=
  let agentEntityId := mkAgentKey chainId agentId
  match s.agents agentEntityId with
  | none => (s, [])
  | some agent =>
      let feedbackId := mkFeedbackKey chainId agentId clientAddress (agent.totalFeedback + 1)
      let feedback : Feedback :=
        { agent := agentEntityId, clientAddress := clientAddress, score := score,
          tag1 := cfg.bytes32ToString tag1, tag2 := cfg.bytes32ToString tag2,
          feedbackUri := feedbackUri,
          feedbackURIType :=
            if 0 < feedbackUri.length then cfg.determineUriType feedbackUri else "unknown",
          feedbackHash := feedbackHash, isRevoked := false,
          createdAt := timestamp, revokedAt := none, feedbackFile := none }
      let s := { s with feedbacks := s.feedbacks.save feedbackId feedback }
      let fetched := scheduleFeedbackFetch cfg feedbackId txHash feedbackUri feedback s
      let s := fetched.1
      let s := updateAgentStats agentEntityId agent score timestamp s
      let s := updateProtocolStats cfg chainId timestamp tag1 tag2 s
      let g := s.globalStats.getD freshGlobalStats
      let g := { g with totalFeedback := g.totalFeedback + 1 }
      let g := { g with
        tags := addTagIfNew (addTagIfNew g.tags tag1) tag2,
        updatedAt := timestamp }
      let s := { s with globalStats := some g }
      (s, Effect.saveFeedback feedbackId feedback :: fetched.2)

/-- `handleFeedbackRevoked` (lines 167-193): flips the revocation flag on
the located feedback — without checking whether it was already revoked —
then decrements the counters via `updateAgentStatsAfterRevocation`. -/
def handleFeedbackRevoked (chainId agentId : Int) (clientAddress : String)
    (feedbackIndex : Int) (timestamp : Int) (s : Store) : Store :=
  let agentEntityId := mkAgentKey chainId agentId
  let feedbackId := mkFeedbackKey chainId agentId clientAddress feedbackIndex
  match s.feedbacks feedbackId with
  | none => s
  | some feedback =>
      let feedback := { feedback with isRevoked := true, revokedAt := some timestamp }
      let s := { s with feedbacks := s.feedbacks.save feedbackId feedback }
      match s.agents agentEntityId with
      | none => s
      | some agent => updateAgentStatsAfterRevocation agentEntityId agent timestamp s

/-- `handleResponseAppended` (lines 195-223). -/
def handleResponseAppended (chainId agentId : Int) (clientAddress : String)
    (feedbackIndex : Int) (responder responseUri responseHash : String)
    (timestamp : Int) (s : Store) : Store :=
  let feedbackId := mkFeedbackKey chainId agentId clientAddress feedbackIndex
  match s.feedbacks feedbackId with
  | none => s
  | some _ =>
      let responseId := feedbackId ++ ":" ++ toString timestamp
      let response : FeedbackResponse :=
        { feedback := feedbackId, responder := responder,
          responseUri := responseUri, responseHash := responseHash,
          createdAt := timestamp }
      { s with responses := s.responses.save responseId response }

end ReputationRegistry

/-- The inbound event kinds (abstract shape of section 6 of the spec),
with the handler each one dispatches to. -/
inductive Ev where
  | registered (chainId agentId : Int) (owner tokenURI txHash : String) (timestamp : Int)
  | metadataSet (chainId agentId : Int) (key value : String) (timestamp : Int)
  | uriUpdated (chainId agentId : Int) (newUri txHash : String) (timestamp : Int)
  | transfer (chainId : Int) (fromAddr toAddr : String) (tokenId : Int) (timestamp : Int)
  | approval (chainId tokenId : Int) (approved : String) (timestamp : Int)
  | approvalForAll (ownerAddr operatorAddr : String) (approved : Bool)
  | newFeedback (chainId agentId : Int) (clientAddress : String) (score : Int)
      (tag1 tag2 feedbackUri feedbackHash txHash : String) (timestamp : Int)
  | feedbackRevoked (chainId agentId : Int) (clientAddress : String)
      (feedbackIndex : Int) (timestamp : Int)
  | responseAppended (chainId agentId : Int) (clientAddress : String)
      (feedbackIndex : Int) (responder responseUri responseHash : String) (timestamp : Int)

/-- One step of the strictly ordered, single-threaded event replay. -/
def step (cfg : Config) (s : Store) (e : Ev) : Store :=
  match e with
  | .registered c aid owner uri tx ts =>
      (IdentityRegistry.handleAgentRegistered cfg c aid owner uri tx ts s).1
  | .metadataSet c aid k v ts => IdentityRegistry.handleMetadataSet c aid k v ts s
  | .uriUpdated c aid uri tx ts => (IdentityRegistry.handleUriUpdated cfg c aid uri tx ts s).1
  | .transfer c fromAddr toAddr tokenId ts =>
      IdentityRegistry.handleTransfer c fromAddr toAddr tokenId ts s
  | .approval c tokenId approved ts => IdentityRegistry.handleApproval c tokenId approved ts s
  | .approvalForAll _ _ _ => IdentityRegistry.handleApprovalForAll s
  | .newFeedback c aid client score t1 t2 uri h tx ts =>
      (ReputationRegistry.handleNewFeedback cfg c aid client score t1 t2 uri h tx ts s).1
  | .feedbackRevoked c aid client idx ts =>
      ReputationRegistry.handleFeedbackRevoked c aid client idx ts s
  | .responseAppended c aid client idx responder uri h ts =>
      ReputationRegistry.handleResponseAppended c aid client idx responder uri h ts s

/-- Replay of a whole event sequence, in order, from a given store. -/
def runEvents (cfg : Config) (evs : List Ev) (s : Store) : Store :=
  evs.foldl (step cfg) s

/-- Parameters of one `NewFeedback` event for a fixed agent. -/
structure FeedbackEv where
  clientAddress : String
  score : Int
  tag1 : String
  tag2 : String
  feedbackUri : String
  feedbackHash : String
  txHash : String
  timestamp : Int

/-- Replay of a sequence of `NewFeedback` events for one agent. -/
def runNewFeedbacks (cfg : Config) (chainId agentId : Int)
    (evs : List FeedbackEv) (s : Store) : Store :=
  evs.foldl
    (fun σ e =>
      (ReputationRegistry.handleNewFeedback cfg chainId agentId e.clientAddress e.score
        e.tag1 e.tag2 e.feedbackUri e.feedbackHash e.txHash e.timestamp σ).1)
    s

/-- The link field carried by a save effect (`registrationFile` for agents,
`feedbackFile` for feedbacks). -/
def Effect.linkOf : Effect → Option String
  | .saveAgent _ a => a.registrationFile
  | .saveFeedback _ f => f.feedbackFile
  | .fetchRequest _ _ => none

def Effect.isFetchRequest : Effect → Bool
  | .fetchRequest _ _ => true
  | _ => false

/-- Does some effect in the list save a primary entity whose link field is
exactly `some k`? -/
def linkSaveFor (k : String) (tr : List Effect) : Bool :=
  tr.any fun e => e.linkOf == some k

/-- The ordering the claim asserts: every fetch request is preceded (in
program order) by a save of the primary entity whose link field already
holds the key the fetched record will be stored under. -/
def linkSavedBeforeFetchAux (seen : List Effect) : List Effect → Bool
  | [] => true
  | Effect.fetchRequest cid fileKey :: rest =>
      linkSaveFor fileKey seen
        && linkSavedBeforeFetchAux (seen ++ [Effect.fetchRequest cid fileKey]) rest
  | e :: rest => linkSavedBeforeFetchAux (seen ++ [e]) rest

def linkSavedBeforeFetch (tr : List Effect) : Bool := linkSavedBeforeFetchAux [] tr

/-- The ordering the code actually implements: every fetch request is
followed, before the handler returns, by a save of the primary entity with
the link field set to the key the fetched record will be stored under. -/
def linkSavedAfterFetch : List Effect → Bool
  | [] => true
  | Effect.fetchRequest _ fileKey :: rest => linkSaveFor fileKey rest && linkSavedAfterFetch rest
  | _ :: rest => linkSavedAfterFetch rest

/-- Projection helpers for the statistics claims. -/
def globalTotalProtocols (s : Store) : Int :=
  (s.globalStats.map GlobalStats.totalProtocols).getD 0

def globalAgentList (s : Store) : List String :=
  (s.globalStats.map GlobalStats.agents).getD []

def protocolAgentList (s : Store) (chainId : Int) : List String :=
  ((s.protocols (toString chainId)).map Protocol.agents).getD []

def statsTF (s : Store) (key : String) : Int :=
  ((s.agentStats key).map AgentStats.totalFeedback).getD 0

def statsAvg (s : Store) (key : String) : ℚ :=
  ((s.agentStats key).map AgentStats.averageScore).getD 0

def statsDist (s : Store) (key : String) : Fin 5 → Int :=
  ((s.agentStats key).map AgentStats.scoreDistribution).getD (fun _ => 0)

/-- Induction invariant for the running-statistics claim: after the
feedbacks in `done` have been processed for the agent under `key`, the
agent's counter, the stats counter, the running mean and the histogram all
agree with `done`. -/
def StatsInv (key : String) (done : List Int) (s : Store) : Prop :=
  (∃ a, s.agents key = some a ∧ a.totalFeedback = (done.length : ℤ))
  ∧ statsTF s key = (done.length : ℤ)
  ∧ statsAvg s key * (done.length : ℚ) = (done.map fun x : Int => (x : ℚ)).sum
  ∧ (∀ i, statsDist s key i = ((done.filter fun x => bucketIndex x = i).length : ℤ))
  ∧ (done ≠ [] → (s.agentStats key).isSome = true)

/-- The duplicate-freedom invariant of claim C7: no protocol tag list, the
global tag list and no agent operator list ever contains a duplicate, and
the all-zero tag never appears in a tag list. -/
def StoreInv (s : Store) : Prop :=
  (∀ k p, s.protocols k = some p → p.tags.Nodup ∧ zeroTagHex ∉ p.tags)
  ∧ (∀ g, s.globalStats = some g → g.tags.Nodup ∧ zeroTagHex ∉ g.tags)
  ∧ (∀ k a, s.agents k = some a → a.operators.Nodup)

/-- Concrete configuration used by the closed counterexamples and
witnesses: chain 11 is the only supported chain, `ipfs://` URIs classify
as IPFS, nothing classifies as Arweave. -/
def cfg0 : Config :=
  { isSupportedChain := fun c => c == 11,
    getChainName := fun _ => "testchain",
    identityRegistryAddress := fun _ => "0x1111111111111111111111111111111111111111",
    reputationRegistryAddress := fun _ => "0x2222222222222222222222222222222222222222",
    validationRegistryAddress := fun _ => "0x3333333333333333333333333333333333333333",
    determineUriType := fun u => if strStartsWith u "ipfs://" then "ipfs" else "unknown",
    isIpfsUri := fun u => strStartsWith u "ipfs://",
    extractIpfsHash := fun u => String.mk (u.data.drop 7),
    isArweaveUri := fun _ => false,
    extractArweaveTxId := fun _ => "",
    bytes32ToString := fun _ => none }

/-- A registered agent on chain 11 with no feedback yet. -/
def agent0 : Agent :=
  { chainId := 11, agentId := 1, owner := "0xowner", agentURI := "",
    agentURIType := "unknown", operators := [], totalFeedback := 0,
    createdAt := 0, updatedAt := 0, lastActivity := 0, registrationFile := none }

/-- Store holding only `agent0`. -/
def storeWithAgent : Store := { emptyStore with agents := Table.empty.save "11:1" agent0 }

/-- One feedback (score 50) for `agent0`, not yet revoked. -/
def feedback0 : Feedback :=
  { agent := "11:1", clientAddress := "0xclient", score := 50, tag1 := none,
    tag2 := none, feedbackUri := "", feedbackURIType := "unknown",
    feedbackHash := "0xhash", isRevoked := false, createdAt := 1,
    revokedAt := none, feedbackFile := none }

/-- Stats of `agent0` after that one feedback. -/
def stats0 : AgentStats :=
  { agent := "11:1", totalFeedback := 1, averageScore := 50,
    scoreDistribution := Function.update (fun _ => 0) 2 1, totalValidations := 0,
    completedValidations := 0, averageValidationScore := 0,
    lastActivity := 1, updatedAt := 1 }

/-- Store with one agent that has exactly one (unrevoked) feedback. -/
def storeWithFeedback : Store :=
  { emptyStore with
    agents := Table.empty.save "11:1" { agent0 with totalFeedback := 1 },
    feedbacks := Table.empty.save "11:1:0xclient:1" feedback0,
    agentStats := Table.empty.save "11:1" stats0 }

theorem Table.save_self {α : Type} (t : Table α) (k : String) (v : α) :
    t.save k v k = some v := by
  simp [Table.save]

theorem Table.save_get {α : Type} (t : Table α) (k q : String) (v : α) :
    t.save k v q = if q = k then some v else t q := rfl

/-- C6: the link key computed by the state machine when scheduling a fetch
and the record key computed by the file data-source handler when persisting
the parsed file are the same pure function of the transaction hash and the
content identifier, so the forward reference always equals the stored key. -/
theorem scheduling_and_parsing_file_id_agree :
    ∀ txHash cid, schedulingFileId txHash cid = parsingFileId txHash cid :=
  fun _ _ => rfl

/-- C2 (failing evaluation): a single Register event on supported chain 11,
replayed on the empty store, leaves `Protocol.totalAgents = 2` — not 1 —
because `handleAgentRegistered` calls `updateProtocolStats` twice
(source lines 54-55); `GlobalStats.totalAgents` is 1 as expected. -/
theorem register_increments_protocol_totalAgents_by_two :
    (((IdentityRegistry.handleAgentRegistered cfg0 11 1 "0xowner" "" "0xtx" 5 emptyStore).1.protocols
        "11").map Protocol.totalAgents = some 2)
    ∧ ((IdentityRegistry.handleAgentRegistered cfg0 11 1 "0xowner" "" "0xtx" 5
        emptyStore).1.globalStats.map GlobalStats.totalAgents = some 1) := by
  decide

/-- C3 (counterexample): a NewFeedback event that is the first event to reach
protocol aggregation for supported chain 11 creates the `Protocol` record
but leaves `GlobalStats.totalProtocols` at 0 instead of incrementing it to 1:
the reputation-registry `updateProtocolStats` has no first-creation counter. -/
theorem first_feedback_creates_protocol_without_global_increment :
    ((((ReputationRegistry.handleNewFeedback cfg0 11 1 "0xclient" 50 zeroTagHex zeroTagHex
        "" "0xhash" "0xtx" 7 storeWithAgent).1.protocols "11").isSome = true)
      ∧ ((ReputationRegistry.handleNewFeedback cfg0 11 1 "0xclient" 50 zeroTagHex zeroTagHex
        "" "0xhash" "0xtx" 7 storeWithAgent).1.globalStats.map GlobalStats.totalProtocols
          = some 0)) := by
  decide

/-- C8 (counterexample): replaying two Register events for the same agent id
leaves duplicate entries in both agent-membership sets (and even a single
Register already duplicates the entry at protocol scope): the append is
unconditional, not idempotent. -/
theorem register_duplicates_agent_membership :
    globalAgentList (runEvents cfg0
        [Ev.registered 11 1 "0xowner" "" "0xtx" 5, Ev.registered 11 1 "0xowner" "" "0xtx" 6]
        emptyStore) = ["11:1", "11:1"]
    ∧ ¬ (globalAgentList (runEvents cfg0
        [Ev.registered 11 1 "0xowner" "" "0xtx" 5, Ev.registered 11 1 "0xowner" "" "0xtx" 6]
        emptyStore)).Nodup
    ∧ protocolAgentList (runEvents cfg0
        [Ev.registered 11 1 "0xowner" "" "0xtx" 5, Ev.registered 11 1 "0xowner" "" "0xtx" 6]
        emptyStore) 11 = ["11:1", "11:1", "11:1", "11:1"] := by
  decide

/-- C5 (counterexample): registering an agent with an IPFS URI issues the
fetch request (file data-source creation) and only afterwards saves the
agent with the `registrationFile` link set; no save carrying the link
precedes the fetch request, contrary to the claim. -/
theorem fetch_request_precedes_link_save :
    ((IdentityRegistry.handleAgentRegistered cfg0 11 1 "0xowner" "ipfs://QmX" "0xtx" 5
        emptyStore).2.any Effect.isFetchRequest = true)
    ∧ linkSavedBeforeFetch
        ((IdentityRegistry.handleAgentRegistered cfg0 11 1 "0xowner" "ipfs://QmX" "0xtx" 5
          emptyStore).2) = false := by
  decide

/-- C9 (counterexample): the wallet endpoint parser accepts a colon-delimited
string with four parts, not only exactly three: the code merely requires
`parts.length > 2` and a well-formed third part. -/
theorem wallet_parser_accepts_four_colon_parts :
    ((strSplit "eip155:1:0xaaaaaaaaaaaaaaaaaaaaaaaaaaaaaaaaaaaaaaaa:extra" ':').length = 4)
    ∧ (parseAgentWallet "eip155:1:0xaaaaaaaaaaaaaaaaaaaaaaaaaaaaaaaaaaaaaaaa:extra"
        = { agentWallet := some "0xaaaaaaaaaaaaaaaaaaaaaaaaaaaaaaaaaaaaaaaa",
            agentWalletChainId := some 1 }) := by
  decide

/-- C4: revoking an existing feedback of an existing agent decrements
`Agent.totalFeedback` and `AgentStats.totalFeedback` by exactly 1 and leaves
the running average and all five histogram buckets untouched. -/
theorem feedback_revocation_frame (chainId agentId : Int) (client : String) (idx ts : Int)
    (s : Store) (f : Feedback) (a : Agent) (st : AgentStats)
    (hf : s.feedbacks (mkFeedbackKey chainId agentId client idx) = some f)
    (ha : s.agents (mkAgentKey chainId agentId) = some a)
    (hst : s.agentStats (mkAgentKey chainId agentId) = some st) :
    ∃ a1 st1,
      (ReputationRegistry.handleFeedbackRevoked chainId agentId client idx ts s).agents
          (mkAgentKey chainId agentId) = some a1
      ∧ a1.totalFeedback = a.totalFeedback - 1
      ∧ (ReputationRegistry.handleFeedbackRevoked chainId agentId client idx ts s).agentStats
          (mkAgentKey chainId agentId) = some st1
      ∧ st1.totalFeedback = st.totalFeedback - 1
      ∧ st1.averageScore = st.averageScore
      ∧ st1.scoreDistribution = st.scoreDistribution := by
  refine ⟨{ a with totalFeedback := a.totalFeedback - 1, updatedAt := ts },
    { st with totalFeedback := st.totalFeedback - 1, updatedAt := ts },
    ?_, rfl, ?_, rfl, rfl, rfl⟩ <;>
  simp [ReputationRegistry.handleFeedbackRevoked,
    ReputationRegistry.updateAgentStatsAfterRevocation, hf, ha, hst, Table.save]

/-- Witness for `feedback_revocation_frame` at a concrete store with one
feedback of score 50. -/
theorem feedback_revocation_frame_witness :
    ∃ a1 st1,
      (ReputationRegistry.handleFeedbackRevoked 11 1 "0xclient" 1 2 storeWithFeedback).agents
          (mkAgentKey 11 1) = some a1
      ∧ a1.totalFeedback = ({ agent0 with totalFeedback := 1 } : Agent).totalFeedback - 1
      ∧ (ReputationRegistry.handleFeedbackRevoked 11 1 "0xclient" 1 2 storeWithFeedback).agentStats
          (mkAgentKey 11 1) = some st1
      ∧ st1.totalFeedback = stats0.totalFeedback - 1
      ∧ st1.averageScore = stats0.averageScore
      ∧ st1.scoreDistribution = stats0.scoreDistribution :=
  feedback_revocation_frame 11 1 "0xclient" 1 2 storeWithFeedback feedback0
    { agent0 with totalFeedback := 1 } stats0 rfl rfl rfl

/-- C10: `handleFeedbackRevoked` never checks the revocation flag, so it
decrements the counters even for an already-revoked feedback; revoking the
single feedback of `storeWithFeedback` twice drives both `Agent.totalFeedback`
and `AgentStats.totalFeedback` to -1, below zero. -/
theorem revocation_not_idempotent (chainId agentId : Int) (client : String) (idx ts : Int)
    (s : Store) (f : Feedback) (a : Agent)
    (hf : s.feedbacks (mkFeedbackKey chainId agentId client idx) = some f)
    (hrev : f.isRevoked = true)
    (ha : s.agents (mkAgentKey chainId agentId) = some a) :
    (∃ a1,
      (ReputationRegistry.handleFeedbackRevoked chainId agentId client idx ts s).agents
          (mkAgentKey chainId agentId) = some a1
      ∧ a1.totalFeedback = a.totalFeedback - 1)
    ∧ (((ReputationRegistry.handleFeedbackRevoked 11 1 "0xclient" 1 3
          (ReputationRegistry.handleFeedbackRevoked 11 1 "0xclient" 1 2
            storeWithFeedback)).agents "11:1").map Agent.totalFeedback = some (-1))
    ∧ (((ReputationRegistry.handleFeedbackRevoked 11 1 "0xclient" 1 3
          (ReputationRegistry.handleFeedbackRevoked 11 1 "0xclient" 1 2
            storeWithFeedback)).agentStats "11:1").map AgentStats.totalFeedback
          = some (-1)) := by
  refine ⟨?_, by decide, by decide⟩
  rcases hstat : s.agentStats (mkAgentKey chainId agentId) with _ | st
  · exact ⟨{ a with totalFeedback := a.totalFeedback - 1, updatedAt := ts },
      by simp [ReputationRegistry.handleFeedbackRevoked,
        ReputationRegistry.updateAgentStatsAfterRevocation, hf, ha, hstat, Table.save], rfl⟩
  · exact ⟨{ a with totalFeedback := a.totalFeedback - 1, updatedAt := ts },
      by simp [ReputationRegistry.handleFeedbackRevoked,
        ReputationRegistry.updateAgentStatsAfterRevocation, hf, ha, hstat, Table.save], rfl⟩

/-- Witness for `revocation_not_idempotent`: revoking the already-revoked
feedback of the once-revoked concrete store decrements the counter again. -/
theorem revocation_not_idempotent_witness :
    (∃ a1,
      (ReputationRegistry.handleFeedbackRevoked 11 1 "0xclient" 1 9
          { storeWithFeedback with
            feedbacks := Table.empty.save "11:1:0xclient:1"
              { feedback0 with isRevoked := true, revokedAt := some 2 } }).agents
          (mkAgentKey 11 1) = some a1
      ∧ a1.totalFeedback = ({ agent0 with totalFeedback := 1 } : Agent).totalFeedback - 1)
    ∧ (((ReputationRegistry.handleFeedbackRevoked 11 1 "0xclient" 1 3
          (ReputationRegistry.handleFeedbackRevoked 11 1 "0xclient" 1 2
            storeWithFeedback)).agents "11:1").map Agent.totalFeedback = some (-1))
    ∧ (((ReputationRegistry.handleFeedbackRevoked 11 1 "0xclient" 1 3
          (ReputationRegistry.handleFeedbackRevoked 11 1 "0xclient" 1 2
            storeWithFeedback)).agentStats "11:1").map AgentStats.totalFeedback
          = some (-1)) :=
  revocation_not_idempotent 11 1 "0xclient" 1 9
    { storeWithFeedback with
      feedbacks := Table.empty.save "11:1:0xclient:1"
        { feedback0 with isRevoked := true, revokedAt := some 2 } }
    { feedback0 with isRevoked := true, revokedAt := some 2 }
    { agent0 with totalFeedback := 1 } rfl rfl rfl

/-- C9 (amended): the wallet endpoint parser accepts a bare 42-character
`0x` string (wallet only), rejects an `eip155:`-prefixed string with just 2
colon-parts, and accepts any `eip155:`-prefixed string with 3 or more parts
whose third part starts with `0x` and has length 42, taking the chain id
from the second part exactly when that part is non-empty. -/
theorem wallet_parser_colon_format (w : String) :
    (strStartsWith w "eip155:" = false → strStartsWith w "0x" = true → w.length = 42 →
      parseAgentWallet w = { agentWallet := some w, agentWalletChainId := none })
    ∧ (strStartsWith w "eip155:" = true → (strSplit w ':').length = 2 →
      parseAgentWallet w = { agentWallet := none, agentWalletChainId := none })
    ∧ (strStartsWith w "eip155:" = true → 2 < (strSplit w ':').length →
      strStartsWith ((strSplit w ':').getD 2 "") "0x" = true →
      ((strSplit w ':').getD 2 "").length = 42 →
      (parseAgentWallet w).agentWallet = some ((strSplit w ':').getD 2 "")
      ∧ (0 < ((strSplit w ':').getD 1 "").length →
          (parseAgentWallet w).agentWalletChainId
            = some (bigIntFromString ((strSplit w ':').getD 1 "")))
      ∧ (((strSplit w ':').getD 1 "").length = 0 →
          (parseAgentWallet w).agentWalletChainId = none)) := by
  refine ⟨?_, ?_, ?_⟩
  · intro h1 h2 h3
    simp [parseAgentWallet, h1, h2, h3]
  · intro h1 h2
    simp [parseAgentWallet, h1, h2]
  · intro h1 h2 h3 h4
    have hw : parseAgentWallet w =
        { agentWallet := some ((strSplit w ':').getD 2 ""),
          agentWalletChainId :=
            if 0 < ((strSplit w ':').getD 1 "").length
            then some (bigIntFromString ((strSplit w ':').getD 1 "")) else none } := by
      simp only [parseAgentWallet, h1, h2, h3, h4, eq_self_iff_true, and_self,
        if_true, ite_true, true_and]
    refine ⟨?_, ?_, ?_⟩
    · rw [hw]
    · intro h5
      rw [hw]
      show (if 0 < ((strSplit w ':').getD 1 "").length
          then some (bigIntFromString ((strSplit w ':').getD 1 "")) else none)
        = some (bigIntFromString ((strSplit w ':').getD 1 ""))
      rw [if_pos h5]
    · intro h5
      rw [hw]
      show (if 0 < ((strSplit w ':').getD 1 "").length
          then some (bigIntFromString ((strSplit w ':').getD 1 "")) else none) = none
      rw [if_neg (by omega)]

/-- Witness for `wallet_parser_colon_format` at a well-formed three-part
string with chain id 5. -/
theorem wallet_parser_colon_format_witness :
    (parseAgentWallet "eip155:5:0xabcdefabcdefabcdefabcdefabcdefabcdefabcd").agentWallet
        = some ((strSplit "eip155:5:0xabcdefabcdefabcdefabcdefabcdefabcdefabcd" ':').getD 2 "")
    ∧ (parseAgentWallet "eip155:5:0xabcdefabcdefabcdefabcdefabcdefabcdefabcd").agentWalletChainId
        = some (bigIntFromString
            ((strSplit "eip155:5:0xabcdefabcdefabcdefabcdefabcdefabcdefabcd" ':').getD 1 "")) :=
  ⟨((wallet_parser_colon_format "eip155:5:0xabcdefabcdefabcdefabcdefabcdefabcdefabcd").2.2
      (by decide) (by decide) (by decide) (by decide)).1,
   ((wallet_parser_colon_format "eip155:5:0xabcdefabcdefabcdefabcdefabcdefabcdefabcd").2.2
      (by decide) (by decide) (by decide) (by decide)).2.1 (by decide)⟩

/-- C5 (amended): for every Register, URIUpdated or NewFeedback event, every
off-chain fetch request issued by the handler is followed — later in the
same handler invocation, hence before any fetch completion is processed —
by a save of the primary entity whose link field holds the key the fetched
record will be stored under. -/
theorem link_saved_within_handler_after_fetch (cfg : Config) :
    (∀ chainId agentId owner tokenURI txHash timestamp s,
      linkSavedAfterFetch
        (IdentityRegistry.handleAgentRegistered cfg chainId agentId owner tokenURI txHash
          timestamp s).2 = true)
    ∧ (∀ chainId agentId newUri txHash timestamp s,
      linkSavedAfterFetch
        (IdentityRegistry.handleUriUpdated cfg chainId agentId newUri txHash timestamp s).2
          = true)
    ∧ (∀ chainId agentId client score tag1 tag2 uri fHash txHash timestamp s,
      linkSavedAfterFetch
        (ReputationRegistry.handleNewFeedback cfg chainId agentId client score tag1 tag2 uri
          fHash txHash timestamp s).2 = true) := by
  refine ⟨?_, ?_, ?_⟩
  · intro chainId agentId owner tokenURI txHash timestamp s
    simp only [IdentityRegistry.handleAgentRegistered, registerFileBranch]
    repeat' split
    all_goals simp [linkSavedAfterFetch, linkSaveFor, Effect.linkOf]
  · intro chainId agentId newUri txHash timestamp s
    simp only [IdentityRegistry.handleUriUpdated, uriFileBranch]
    repeat' split
    all_goals simp [linkSavedAfterFetch, linkSaveFor, Effect.linkOf]
  · intro chainId agentId client score tag1 tag2 uri fHash txHash timestamp s
    simp only [ReputationRegistry.handleNewFeedback, ReputationRegistry.scheduleFeedbackFetch]
    repeat' split
    all_goals simp [linkSavedAfterFetch, linkSaveFor, Effect.linkOf]

/-- Both stores returned by a `registerFileBranch` carry the protocols table
of its input store: the branch only ever saves the agent. -/
theorem registerFileBranch_protocols (check : String → Bool) (extract : String → String)
    (agentEntityId tokenURI txHash : String) (agent : Agent) (s : Store) (tr : List Effect) :
    ((registerFileBranch check extract agentEntityId tokenURI txHash agent s tr).1).protocols
      = s.protocols := by
  simp only [registerFileBranch]
  (repeat' split) <;> rfl

/-- A `registerFileBranch` never touches the global stats either. -/
theorem registerFileBranch_globalStats (check : String → Bool) (extract : String → String)
    (agentEntityId tokenURI txHash : String) (agent : Agent) (s : Store) (tr : List Effect) :
    ((registerFileBranch check extract agentEntityId tokenURI txHash agent s tr).1).globalStats
      = s.globalStats := by
  simp only [registerFileBranch]
  (repeat' split) <;> rfl

/-- A `uriFileBranch` leaves the protocols table unchanged. -/
theorem uriFileBranch_protocols (check : String → Bool) (extract : String → String)
    (typeName agentEntityId newUri txHash : String) (agent : Agent) (s : Store)
    (tr : List Effect) :
    ((uriFileBranch check extract typeName agentEntityId newUri txHash agent s tr).1).protocols
      = s.protocols := by
  simp only [uriFileBranch]
  (repeat' split) <;> rfl

/-- A `uriFileBranch` leaves the global stats unchanged. -/
theorem uriFileBranch_globalStats (check : String → Bool) (extract : String → String)
    (typeName agentEntityId newUri txHash : String) (agent : Agent) (s : Store)
    (tr : List Effect) :
    ((uriFileBranch check extract typeName agentEntityId newUri txHash agent s tr).1).globalStats
      = s.globalStats := by
  simp only [uriFileBranch]
  (repeat' split) <;> rfl

/-- Protocols table written by the identity-registry `updateProtocolStats`
on a supported chain, in load-or-create form. -/
theorem updI_protocols_table (cfg : Config) (c : Int) (k : String) (ts : Int) (s : Store)
    (hsup : cfg.isSupportedChain c = true) :
    (IdentityRegistry.updateProtocolStats cfg c k ts s).protocols
      = s.protocols.save (toString c)
          { ((s.protocols (toString c)).getD (freshProtocol cfg c)) with
            totalAgents := ((s.protocols (toString c)).getD (freshProtocol cfg c)).totalAgents + 1,
            agents := ((s.protocols (toString c)).getD (freshProtocol cfg c)).agents ++ [k],
            updatedAt := ts } := by
  simp only [IdentityRegistry.updateProtocolStats, hsup, eq_self_iff_true, if_true]
  split <;> rfl

/-- Global stats after the identity-registry `updateProtocolStats` on a
supported chain: the protocol counter moves only on first creation. -/
theorem updI_globalStats (cfg : Config) (c : Int) (k : String) (ts : Int) (s : Store)
    (hsup : cfg.isSupportedChain c = true) :
    (IdentityRegistry.updateProtocolStats cfg c k ts s).globalStats
      = if (s.protocols (toString c)).isSome then s.globalStats
        else some { (s.globalStats.getD freshGlobalStats) with
          totalProtocols := (s.globalStats.getD freshGlobalStats).totalProtocols + 1,
          updatedAt := ts } := by
  rcases hp : s.protocols (toString c) with _ | p <;>
    simp [IdentityRegistry.updateProtocolStats, hsup, hp]

/-- Effect of one Register event on the protocol / global aggregates of a
supported chain: `Protocol.totalAgents` aside, the agent id is appended
twice to `Protocol.agents` and once to `GlobalStats.agents` (never
de-duplicated), and `GlobalStats.totalProtocols` grows by 1 exactly when the
`Protocol` record did not exist before. -/
theorem register_membership_effects (cfg : Config) (c aid : Int)
    (owner uri tx : String) (ts : Int) (s : Store)
    (hsup : cfg.isSupportedChain c = true) :
    protocolAgentList ((IdentityRegistry.handleAgentRegistered cfg c aid owner uri tx ts s).1) c
      = protocolAgentList s c ++ [mkAgentKey c aid, mkAgentKey c aid]
    ∧ (((IdentityRegistry.handleAgentRegistered cfg c aid owner uri tx ts s).1.protocols
        (toString c)).isSome = true)
    ∧ globalAgentList ((IdentityRegistry.handleAgentRegistered cfg c aid owner uri tx ts s).1)
      = globalAgentList s ++ [mkAgentKey c aid]
    ∧ globalTotalProtocols ((IdentityRegistry.handleAgentRegistered cfg c aid owner uri tx ts s).1)
      = globalTotalProtocols s + (if (s.protocols (toString c)).isSome then 0 else 1) := by
  rcases hp : s.protocols (toString c) with _ | p <;>
    rcases hg : s.globalStats with _ | g <;>
      (refine ⟨?_, ?_, ?_, ?_⟩ <;>
        simp [IdentityRegistry.handleAgentRegistered, registerFileBranch_protocols,
          registerFileBranch_globalStats, updI_protocols_table, updI_globalStats, hsup, hp, hg,
          protocolAgentList, globalAgentList, globalTotalProtocols, Table.save,
          freshProtocol, freshGlobalStats])

/-- Effect of one NewFeedback event (for an existing agent) on the protocol
bootstrap: the `Protocol` record exists afterwards, but
`GlobalStats.totalProtocols` is never changed by the reputation path. -/
theorem newFeedback_protocol_effects (cfg : Config) (c aid : Int) (client : String)
    (score : Int) (t1 t2 uri fHash tx : String) (ts : Int) (s : Store) (a : Agent)
    (hsup : cfg.isSupportedChain c = true)
    (ha : s.agents (mkAgentKey c aid) = some a) :
    (((ReputationRegistry.handleNewFeedback cfg c aid client score t1 t2 uri fHash tx ts
        s).1.protocols (toString c)).isSome = true)
    ∧ globalTotalProtocols
        ((ReputationRegistry.handleNewFeedback cfg c aid client score t1 t2 uri fHash tx ts s).1)
      = globalTotalProtocols s := by
  rcases hg : s.globalStats with _ | g <;>
    simp only [ReputationRegistry.handleNewFeedback, ReputationRegistry.scheduleFeedbackFetch,
      ReputationRegistry.updateAgentStats, ReputationRegistry.updateProtocolStats,
      hsup, ha, hg] <;>
    (repeat' split) <;>
    simp_all [globalTotalProtocols, Table.save, freshGlobalStats]

/-- C3 (amended): for a supported chain, the first Register event creates the
`Protocol` record and increments `GlobalStats.totalProtocols` by exactly 1
(even though it runs `updateProtocolStats` twice), and any later Register
leaves the counter unchanged; a NewFeedback event also lazily creates the
`Protocol` record, but the reputation-registry path never increments
`GlobalStats.totalProtocols` — so a chain first seen through a NewFeedback
event is never counted. -/
theorem protocol_bootstrap_totalProtocols (cfg : Config) (c : Int)
    (hsup : cfg.isSupportedChain c = true) :
    (∀ aid owner uri tx ts s, s.protocols (toString c) = none →
      (((IdentityRegistry.handleAgentRegistered cfg c aid owner uri tx ts s).1.protocols
          (toString c)).isSome = true)
      ∧ globalTotalProtocols ((IdentityRegistry.handleAgentRegistered cfg c aid owner uri tx ts s).1)
          = globalTotalProtocols s + 1)
    ∧ (∀ aid owner uri tx ts s p, s.protocols (toString c) = some p →
      globalTotalProtocols ((IdentityRegistry.handleAgentRegistered cfg c aid owner uri tx ts s).1)
        = globalTotalProtocols s)
    ∧ (∀ aid client score t1 t2 uri fHash tx ts s a,
        s.agents (mkAgentKey c aid) = some a →
      (((ReputationRegistry.handleNewFeedback cfg c aid client score t1 t2 uri fHash tx ts
          s).1.protocols (toString c)).isSome = true)
      ∧ globalTotalProtocols
          ((ReputationRegistry.handleNewFeedback cfg c aid client score t1 t2 uri fHash tx ts s).1)
        = globalTotalProtocols s) := by
  refine ⟨?_, ?_, ?_⟩
  · intro aid owner uri tx ts s hnone
    have h := register_membership_effects cfg c aid owner uri tx ts s hsup
    refine ⟨h.2.1, ?_⟩
    rw [h.2.2.2, hnone]
    simp
  · intro aid owner uri tx ts s p hsome
    have h := register_membership_effects cfg c aid owner uri tx ts s hsup
    rw [h.2.2.2, hsome]
    simp
  · intro aid client score t1 t2 uri fHash tx ts s a ha
    exact newFeedback_protocol_effects cfg c aid client score t1 t2 uri fHash tx ts s a hsup ha

/-- Witness for `protocol_bootstrap_totalProtocols`: the first Register on
chain 11 replayed on the empty store creates the protocol and takes
`totalProtocols` from 0 to 1. -/
theorem protocol_bootstrap_totalProtocols_witness :
    (((IdentityRegistry.handleAgentRegistered cfg0 11 1 "0xowner" "" "0xtx" 5
        emptyStore).1.protocols (toString (11 : Int))).isSome = true)
    ∧ globalTotalProtocols
        ((IdentityRegistry.handleAgentRegistered cfg0 11 1 "0xowner" "" "0xtx" 5 emptyStore).1)
      = globalTotalProtocols emptyStore + 1 :=
  (protocol_bootstrap_totalProtocols cfg0 11 (by decide)).1 1 "0xowner" "" "0xtx" 5
    emptyStore rfl

/-- C8 (amended): appending to the agent-membership sets is an unconditional
push, not an idempotent insert: every Register event on a supported chain
appends the agent id once to `GlobalStats.agents` and — because of the
duplicated `updateProtocolStats` call — twice to `Protocol.agents`, so
repeated Register events for the same agent id accumulate duplicates. -/
theorem agent_membership_append_per_register (cfg : Config) (c aid : Int)
    (owner uri tx : String) (ts : Int) (s : Store)
    (hsup : cfg.isSupportedChain c = true) :
    protocolAgentList ((IdentityRegistry.handleAgentRegistered cfg c aid owner uri tx ts s).1) c
      = protocolAgentList s c ++ [mkAgentKey c aid, mkAgentKey c aid]
    ∧ globalAgentList ((IdentityRegistry.handleAgentRegistered cfg c aid owner uri tx ts s).1)
      = globalAgentList s ++ [mkAgentKey c aid] :=
  ⟨(register_membership_effects cfg c aid owner uri tx ts s hsup).1,
   (register_membership_effects cfg c aid owner uri tx ts s hsup).2.2.1⟩

/-- Witness for `agent_membership_append_per_register` on a store that
already contains the agent. -/
theorem agent_membership_append_per_register_witness :
    protocolAgentList
        ((IdentityRegistry.handleAgentRegistered cfg0 11 1 "0xowner" "" "0xtx" 5
          storeWithAgent).1) 11
      = protocolAgentList storeWithAgent 11 ++ [mkAgentKey 11 1, mkAgentKey 11 1]
    ∧ globalAgentList
        ((IdentityRegistry.handleAgentRegistered cfg0 11 1 "0xowner" "" "0xtx" 5
          storeWithAgent).1)
      = globalAgentList storeWithAgent ++ [mkAgentKey 11 1] :=
  agent_membership_append_per_register cfg0 11 1 "0xowner" "" "0xtx" 5 storeWithAgent
    (by decide)

theorem addTagIfNew_nodup (tags : List String) (tag : String) (h : tags.Nodup) :
    (addTagIfNew tags tag).Nodup := by
  unfold addTagIfNew
  split
  · split
    · exact h
    · rename_i hmem
      refine List.Nodup.append h (List.nodup_singleton _) ?_
      intro x hx hx1
      rcases List.mem_singleton.mp hx1
      exact hmem (List.elem_iff.mpr hx)
  · exact h

theorem addTagIfNew_zero_not_mem (tags : List String) (tag : String)
    (h : zeroTagHex ∉ tags) : zeroTagHex ∉ addTagIfNew tags tag := by
  unfold addTagIfNew
  split
  · split
    · exact h
    · rename_i hne _
      intro hmem
      rcases List.mem_append.mp hmem with h1 | h1
      · exact h h1
      · exact hne (List.mem_singleton.mp h1).symm
  · exact h

theorem StoreInv.frame {s s' : Store} (h : StoreInv s)
    (hA : s'.agents = s.agents) (hP : s'.protocols = s.protocols)
    (hG : s'.globalStats = s.globalStats) : StoreInv s' := by
  unfold StoreInv at h ⊢
  rw [hA, hP, hG]
  exact h

theorem StoreInv.save_agent {s : Store} (h : StoreInv s) (k : String) (a : Agent)
    (ha : a.operators.Nodup) : StoreInv { s with agents := s.agents.save k a } := by
  obtain ⟨h1, h2, h3⟩ := h
  refine ⟨h1, h2, ?_⟩
  intro q b hb
  rw [show ({ s with agents := s.agents.save k a } : Store).agents = s.agents.save k a from rfl,
    Table.save_get] at hb
  split at hb
  · injection hb with hba
    exact hba ▸ ha
  · exact h3 q b hb

theorem StoreInv.save_protocol {s : Store} (h : StoreInv s) (k : String) (p : Protocol)
    (hp : p.tags.Nodup ∧ zeroTagHex ∉ p.tags) :
    StoreInv { s with protocols := s.protocols.save k p } := by
  obtain ⟨h1, h2, h3⟩ := h
  refine ⟨?_, h2, h3⟩
  intro q b hb
  rw [show ({ s with protocols := s.protocols.save k p } : Store).protocols
      = s.protocols.save k p from rfl, Table.save_get] at hb
  split at hb
  · injection hb with hbp
    exact hbp ▸ hp
  · exact h1 q b hb

theorem StoreInv.set_global {s : Store} (h : StoreInv s) (g : GlobalStats)
    (hg : g.tags.Nodup ∧ zeroTagHex ∉ g.tags) :
    StoreInv { s with globalStats := some g } := by
  obtain ⟨h1, h2, h3⟩ := h
  refine ⟨h1, ?_, h3⟩
  intro g1 hg1
  injection hg1 with hgg
  exact hgg ▸ hg

theorem StoreInv.protocol_getD_tags {s : Store} (h : StoreInv s) (cfg : Config) (c : Int) :
    ((s.protocols (toString c)).getD (freshProtocol cfg c)).tags.Nodup
    ∧ zeroTagHex ∉ ((s.protocols (toString c)).getD (freshProtocol cfg c)).tags := by
  rcases hp : s.protocols (toString c) with _ | p
  · simp [freshProtocol]
  · simpa using h.1 _ p hp

theorem StoreInv.global_getD_tags {s : Store} (h : StoreInv s) :
    (s.globalStats.getD freshGlobalStats).tags.Nodup
    ∧ zeroTagHex ∉ (s.globalStats.getD freshGlobalStats).tags := by
  rcases hg : s.globalStats with _ | g
  · simp [freshGlobalStats]
  · simpa using h.2.1 g hg

theorem storeInv_empty : StoreInv emptyStore := by
  refine ⟨fun k p hp => ?_, fun g hg => ?_, fun k a ha => ?_⟩
  · simp [emptyStore, Table.empty] at hp
  · simp [emptyStore] at hg
  · simp [emptyStore, Table.empty] at ha

theorem registerFileBranch_agent_operators (check : String → Bool) (extract : String → String)
    (agentEntityId tokenURI txHash : String) (agent : Agent) (s : Store) (tr : List Effect) :
    ((registerFileBranch check extract agentEntityId tokenURI txHash agent s tr).2.1).operators
      = agent.operators := by
  simp only [registerFileBranch]
  (repeat' split) <;> rfl

theorem uriFileBranch_agent_operators (check : String → Bool) (extract : String → String)
    (typeName agentEntityId newUri txHash : String) (agent : Agent) (s : Store)
    (tr : List Effect) :
    ((uriFileBranch check extract typeName agentEntityId newUri txHash agent s tr).2.1).operators
      = agent.operators := by
  simp only [uriFileBranch]
  (repeat' split) <;> rfl

theorem registerFileBranch_storeInv (check : String → Bool) (extract : String → String)
    (agentEntityId tokenURI txHash : String) (agent : Agent) (s : Store) (tr : List Effect)
    (h : StoreInv s) (hop : agent.operators.Nodup) :
    StoreInv ((registerFileBranch check extract agentEntityId tokenURI txHash agent s tr).1) := by
  simp only [registerFileBranch]
  (repeat' split) <;>
    first
    | exact h
    | exact StoreInv.save_agent h _ _ hop

theorem StoreInv.save_agent_twice {s : Store} (h : StoreInv s) (k1 k2 : String)
    (a1 a2 : Agent) (h1 : a1.operators.Nodup) (h2 : a2.operators.Nodup) :
    StoreInv { s with agents := (s.agents.save k1 a1).save k2 a2 } := by
  obtain ⟨hP, hG, hA⟩ := h
  refine ⟨hP, hG, ?_⟩
  intro q b hb
  rw [show ({ s with agents := (s.agents.save k1 a1).save k2 a2 } : Store).agents
      = (s.agents.save k1 a1).save k2 a2 from rfl, Table.save_get] at hb
  split at hb
  · injection hb with hb2
    exact hb2 ▸ h2
  · rw [Table.save_get] at hb
    split at hb
    · injection hb with hb1
      exact hb1 ▸ h1
    · exact hA q b hb

theorem uriFileBranch_storeInv (check : String → Bool) (extract : String → String)
    (typeName agentEntityId newUri txHash : String) (agent : Agent) (s : Store)
    (tr : List Effect) (h : StoreInv s) (hop : agent.operators.Nodup) :
    StoreInv ((uriFileBranch check extract typeName agentEntityId newUri txHash agent s tr).1) := by
  simp only [uriFileBranch]
  (repeat' split) <;>
    first
    | exact h
    | exact StoreInv.save_agent h _ _ hop
    | exact StoreInv.save_agent_twice h _ _ _ _ hop hop

theorem updI_storeInv (cfg : Config) (c : Int) (k : String) (ts : Int) (s : Store)
    (h : StoreInv s) : StoreInv (IdentityRegistry.updateProtocolStats cfg c k ts s) := by
  rcases hsup : cfg.isSupportedChain c with _ | _
  · simp only [IdentityRegistry.updateProtocolStats, hsup]
    simpa using h
  · refine ⟨fun q pq hq => ?_, fun g hgq => ?_, fun q aq hq => ?_⟩
    · rw [show (IdentityRegistry.updateProtocolStats cfg c k ts s).protocols q
          = ((IdentityRegistry.updateProtocolStats cfg c k ts s).protocols) q from rfl,
        updI_protocols_table cfg c k ts s hsup, Table.save_get] at hq
      split at hq
      · injection hq with hqe
        exact hqe ▸ StoreInv.protocol_getD_tags h cfg c
      · exact h.1 q pq hq
    · rw [updI_globalStats cfg c k ts s hsup] at hgq
      split at hgq
      · exact h.2.1 g hgq
      · injection hgq with hge
        exact hge ▸ StoreInv.global_getD_tags h
    · have hA : (IdentityRegistry.updateProtocolStats cfg c k ts s).agents = s.agents := by
        simp only [IdentityRegistry.updateProtocolStats]
        (repeat' split) <;> rfl
      rw [hA] at hq
      exact h.2.2 q aq hq

theorem updR_storeInv (cfg : Config) (c : Int) (ts : Int) (t1 t2 : String) (s : Store)
    (h : StoreInv s) :
    StoreInv (ReputationRegistry.updateProtocolStats cfg c ts t1 t2 s) := by
  unfold ReputationRegistry.updateProtocolStats
  split
  · refine StoreInv.save_protocol h _ _ ⟨?_, ?_⟩
    · exact addTagIfNew_nodup _ _
        (addTagIfNew_nodup _ _ (StoreInv.protocol_getD_tags h cfg c).1)
    · exact addTagIfNew_zero_not_mem _ _
        (addTagIfNew_zero_not_mem _ _ (StoreInv.protocol_getD_tags h cfg c).2)
  · exact h

theorem scheduleFeedbackFetch_storeInv (cfg : Config) (feedbackId txHash feedbackUri : String)
    (feedback : Feedback) (s : Store) (h : StoreInv s) :
    StoreInv ((ReputationRegistry.scheduleFeedbackFetch cfg feedbackId txHash feedbackUri
      feedback s).1) := by
  refine StoreInv.frame h ?_ ?_ ?_ <;>
    (simp only [ReputationRegistry.scheduleFeedbackFetch]; (repeat' split) <;> rfl)

theorem updateAgentStats_storeInv (k : String) (agent : Agent) (score : Int) (ts : Int)
    (s : Store) (h : StoreInv s) (hop : agent.operators.Nodup) :
    StoreInv (ReputationRegistry.updateAgentStats k agent score ts s) := by
  refine StoreInv.frame (StoreInv.save_agent h k
    { agent with totalFeedback := agent.totalFeedback + 1, lastActivity := ts, updatedAt := ts }
    hop) ?_ ?_ ?_ <;> rfl

theorem updAfterRevocation_storeInv (k : String) (agent : Agent) (ts : Int) (s : Store)
    (h : StoreInv s) (hop : agent.operators.Nodup) :
    StoreInv (ReputationRegistry.updateAgentStatsAfterRevocation k agent ts s) := by
  simp only [ReputationRegistry.updateAgentStatsAfterRevocation]
  split
  · exact StoreInv.save_agent h _ _ hop
  · refine StoreInv.frame (StoreInv.save_agent h k
      { agent with totalFeedback := agent.totalFeedback - 1, updatedAt := ts } hop)
      ?_ ?_ ?_ <;> rfl

theorem StoreInv.save_feedback {s : Store} (h : StoreInv s) (k : String) (f : Feedback) :
    StoreInv { s with feedbacks := s.feedbacks.save k f } :=
  StoreInv.frame h rfl rfl rfl

theorem registerCore_storeInv (cfg : Config) (c : Int) (k : String) (ts : Int) (σ : Store)
    (hσ : StoreInv σ) :
    StoreInv { IdentityRegistry.updateProtocolStats cfg c k ts
        (IdentityRegistry.updateProtocolStats cfg c k ts σ) with
      globalStats := some { ((IdentityRegistry.updateProtocolStats cfg c k ts
            (IdentityRegistry.updateProtocolStats cfg c k ts σ)).globalStats.getD
              freshGlobalStats) with
          totalAgents := ((IdentityRegistry.updateProtocolStats cfg c k ts
            (IdentityRegistry.updateProtocolStats cfg c k ts σ)).globalStats.getD
              freshGlobalStats).totalAgents + 1,
          agents := ((IdentityRegistry.updateProtocolStats cfg c k ts
            (IdentityRegistry.updateProtocolStats cfg c k ts σ)).globalStats.getD
              freshGlobalStats).agents ++ [k],
          updatedAt := ts } } := by
  have hU2 := updI_storeInv cfg c k ts _ (updI_storeInv cfg c k ts σ hσ)
  exact StoreInv.set_global hU2 _ (StoreInv.global_getD_tags hU2)

theorem register_storeInv (cfg : Config) (c aid : Int) (owner uri tx : String) (ts : Int)
    (s : Store) (h : StoreInv s) :
    StoreInv ((IdentityRegistry.handleAgentRegistered cfg c aid owner uri tx ts s).1) := by
  rcases ha : s.agents (mkAgentKey c aid) with _ | a0 <;>
    simp only [IdentityRegistry.handleAgentRegistered, ha]
  · apply registerFileBranch_storeInv
    · apply registerFileBranch_storeInv
      · exact registerCore_storeInv cfg c (mkAgentKey c aid) ts _
          (StoreInv.save_agent h _ _ List.nodup_nil)
      · exact List.nodup_nil
    · rw [registerFileBranch_agent_operators]
      exact List.nodup_nil
  · have hop := h.2.2 _ a0 ha
    apply registerFileBranch_storeInv
    · apply registerFileBranch_storeInv
      · exact registerCore_storeInv cfg c (mkAgentKey c aid) ts _
          (StoreInv.save_agent h _ _ hop)
      · exact hop
    · rw [registerFileBranch_agent_operators]
      exact hop

theorem metadataSet_storeInv (c aid : Int) (key value : String) (ts : Int) (s : Store)
    (h : StoreInv s) : StoreInv (IdentityRegistry.handleMetadataSet c aid key value ts s) := by
  rcases ha : s.agents (mkAgentKey c aid) with _ | a0 <;>
    simp only [IdentityRegistry.handleMetadataSet, ha]
  · exact h
  · have h1 : StoreInv { s with
        metadatas :=
          s.metadatas.save (toString aid ++ ":" ++ key)
            { agent := mkAgentKey c aid, key := key, value := value, updatedAt := ts } } :=
      StoreInv.frame h rfl rfl rfl
    exact StoreInv.save_agent h1 _ _ (h.2.2 _ a0 ha)

theorem uriUpdated_storeInv (cfg : Config) (c aid : Int) (uri tx : String) (ts : Int)
    (s : Store) (h : StoreInv s) :
    StoreInv ((IdentityRegistry.handleUriUpdated cfg c aid uri tx ts s).1) := by
  rcases ha : s.agents (mkAgentKey c aid) with _ | a0 <;>
    simp only [IdentityRegistry.handleUriUpdated, ha]
  · exact h
  · have hop := h.2.2 _ a0 ha
    apply uriFileBranch_storeInv
    · apply uriFileBranch_storeInv
      · exact StoreInv.save_agent h _ _ hop
      · exact hop
    · rw [uriFileBranch_agent_operators]
      exact hop

theorem transfer_storeInv (c : Int) (fromAddr toAddr : String) (tid ts : Int) (s : Store)
    (h : StoreInv s) : StoreInv (IdentityRegistry.handleTransfer c fromAddr toAddr tid ts s) := by
  simp only [IdentityRegistry.handleTransfer]
  split
  · exact h
  · rcases ha : s.agents (mkAgentKey c tid) with _ | a0 <;> simp only [ha]
    · exact h
    · exact StoreInv.save_agent h _ _ (h.2.2 _ a0 ha)

theorem approval_storeInv (c tid : Int) (approved : String) (ts : Int) (s : Store)
    (h : StoreInv s) : StoreInv (IdentityRegistry.handleApproval c tid approved ts s) := by
  rcases ha : s.agents (mkAgentKey c tid) with _ | a0 <;>
    simp only [IdentityRegistry.handleApproval, ha]
  · exact h
  · refine StoreInv.save_agent h _ _ ?_
    have hop := h.2.2 _ a0 ha
    show (if approved ≠ zeroAddressHex then
        (if a0.operators.contains approved then a0.operators else a0.operators ++ [approved])
      else a0.operators.filter (fun op => op ≠ approved)).Nodup
    split
    · split
      · exact hop
      · rename_i hmem
        refine List.Nodup.append hop (List.nodup_singleton _) ?_
        intro x hx hx1
        rcases List.mem_singleton.mp hx1
        exact hmem (List.elem_iff.mpr hx)
    · exact hop.filter _

theorem newFeedback_storeInv (cfg : Config) (c aid : Int) (client : String) (score : Int)
    (t1 t2 uri fHash tx : String) (ts : Int) (s : Store) (h : StoreInv s) :
    StoreInv ((ReputationRegistry.handleNewFeedback cfg c aid client score t1 t2 uri fHash
      tx ts s).1) := by
  rcases ha : s.agents (mkAgentKey c aid) with _ | a0 <;>
    simp only [ReputationRegistry.handleNewFeedback, ha]
  · exact h
  · have hop := h.2.2 _ a0 ha
    have h1 : StoreInv { s with
        feedbacks :=
          s.feedbacks.save (mkFeedbackKey c aid client (a0.totalFeedback + 1))
            { agent := mkAgentKey c aid, clientAddress := client, score := score,
              tag1 := cfg.bytes32ToString t1, tag2 := cfg.bytes32ToString t2,
              feedbackUri := uri,
              feedbackURIType := if 0 < uri.length then cfg.determineUriType uri else "unknown",
              feedbackHash := fHash, isRevoked := false, createdAt := ts,
              revokedAt := none, feedbackFile := none } } :=
      StoreInv.save_feedback h _ _
    have h2 := scheduleFeedbackFetch_storeInv cfg
      (mkFeedbackKey c aid client (a0.totalFeedback + 1)) tx uri
      { agent := mkAgentKey c aid, clientAddress := client, score := score,
        tag1 := cfg.bytes32ToString t1, tag2 := cfg.bytes32ToString t2,
        feedbackUri := uri,
        feedbackURIType := if 0 < uri.length then cfg.determineUriType uri else "unknown",
        feedbackHash := fHash, isRevoked := false, createdAt := ts,
        revokedAt := none, feedbackFile := none } _ h1
    have h3 := updateAgentStats_storeInv (mkAgentKey c aid) a0 score ts _ h2 hop
    have h4 := updR_storeInv cfg c ts t1 t2 _ h3
    exact StoreInv.set_global h4 _
      ⟨addTagIfNew_nodup _ _ (addTagIfNew_nodup _ _ (StoreInv.global_getD_tags h4).1),
       addTagIfNew_zero_not_mem _ _
         (addTagIfNew_zero_not_mem _ _ (StoreInv.global_getD_tags h4).2)⟩

theorem feedbackRevoked_storeInv (c aid : Int) (client : String) (idx ts : Int) (s : Store)
    (h : StoreInv s) :
    StoreInv (ReputationRegistry.handleFeedbackRevoked c aid client idx ts s) := by
  simp only [ReputationRegistry.handleFeedbackRevoked]
  split
  · exact h
  · rename_i f hf
    have h1 : StoreInv { s with
        feedbacks :=
          s.feedbacks.save (mkFeedbackKey c aid client idx)
            { f with isRevoked := true, revokedAt := some ts } } :=
      StoreInv.save_feedback h _ _
    rcases ha : s.agents (mkAgentKey c aid) with _ | a0 <;> simp only [ha]
    · exact h1
    · exact updAfterRevocation_storeInv _ _ _ _ h1 (h.2.2 _ a0 ha)

theorem responseAppended_storeInv (c aid : Int) (client : String) (idx : Int)
    (responder uri rHash : String) (ts : Int) (s : Store) (h : StoreInv s) :
    StoreInv (ReputationRegistry.handleResponseAppended c aid client idx responder uri rHash
      ts s) := by
  simp only [ReputationRegistry.handleResponseAppended]
  split
  · exact h
  · exact StoreInv.frame h rfl rfl rfl

theorem step_storeInv (cfg : Config) (s : Store) (e : Ev) (h : StoreInv s) :
    StoreInv (step cfg s e) := by
  cases e with
  | registered c aid owner uri tx ts => exact register_storeInv cfg c aid owner uri tx ts s h
  | metadataSet c aid k v ts => exact metadataSet_storeInv c aid k v ts s h
  | uriUpdated c aid uri tx ts => exact uriUpdated_storeInv cfg c aid uri tx ts s h
  | transfer c fromA toA tid ts => exact transfer_storeInv c fromA toA tid ts s h
  | approval c tid ap ts => exact approval_storeInv c tid ap ts s h
  | approvalForAll o q b => exact h
  | newFeedback c aid cl sc t1 t2 uri fh tx ts =>
      exact newFeedback_storeInv cfg c aid cl sc t1 t2 uri fh tx ts s h
  | feedbackRevoked c aid cl idx ts => exact feedbackRevoked_storeInv c aid cl idx ts s h
  | responseAppended c aid cl idx r uri rh ts =>
      exact responseAppended_storeInv c aid cl idx r uri rh ts s h

/-- C7: replaying any event sequence from the empty store, the tag lists of
every `Protocol` record and of `GlobalStats` stay duplicate-free and never
contain the all-zero 32-byte tag, and every agent's operator list stays
duplicate-free. -/
theorem tag_and_operator_sets_invariant (cfg : Config) (evs : List Ev) :
    StoreInv (runEvents cfg evs emptyStore) := by
  suffices h : ∀ s, StoreInv s → StoreInv (runEvents cfg evs s)
    from h emptyStore storeInv_empty
  induction evs with
  | nil => exact fun s hs => hs
  | cons e rest ih => exact fun s hs => ih (step cfg s e) (step_storeInv cfg s e hs)

/-- Witness for `tag_and_operator_sets_invariant` on a concrete replay with
a registration, an approval and a feedback carrying duplicate tags. -/
theorem tag_and_operator_sets_invariant_witness :
    StoreInv (runEvents cfg0
      [Ev.registered 11 1 "0xowner" "" "0xtx" 5,
       Ev.approval 11 1 "0xoperator1" 6,
       Ev.newFeedback 11 1 "0xclient" 50 "0x0101" "0x0101" "" "0xhash" "0xtx2" 7]
      emptyStore) :=
  tag_and_operator_sets_invariant cfg0
    [Ev.registered 11 1 "0xowner" "" "0xtx" 5,
     Ev.approval 11 1 "0xoperator1" 6,
     Ev.newFeedback 11 1 "0xclient" 50 "0x0101" "0x0101" "" "0xhash" "0xtx2" 7]

theorem scheduleFeedbackFetch_agents (cfg : Config) (fid tx uri : String) (fb : Feedback)
    (s : Store) :
    ((ReputationRegistry.scheduleFeedbackFetch cfg fid tx uri fb s).1).agents = s.agents := by
  simp only [ReputationRegistry.scheduleFeedbackFetch]
  (repeat' split) <;> rfl

theorem scheduleFeedbackFetch_agentStats (cfg : Config) (fid tx uri : String) (fb : Feedback)
    (s : Store) :
    ((ReputationRegistry.scheduleFeedbackFetch cfg fid tx uri fb s).1).agentStats
      = s.agentStats := by
  simp only [ReputationRegistry.scheduleFeedbackFetch]
  (repeat' split) <;> rfl

theorem updR_agents (cfg : Config) (c ts : Int) (t1 t2 : String) (s : Store) :
    (ReputationRegistry.updateProtocolStats cfg c ts t1 t2 s).agents = s.agents := by
  simp only [ReputationRegistry.updateProtocolStats]
  (repeat' split) <;> rfl

theorem updR_agentStats (cfg : Config) (c ts : Int) (t1 t2 : String) (s : Store) :
    (ReputationRegistry.updateProtocolStats cfg c ts t1 t2 s).agentStats = s.agentStats := by
  simp only [ReputationRegistry.updateProtocolStats]
  (repeat' split) <;> rfl

theorem updateAgentStats_agents (k : String) (agent : Agent) (score ts : Int) (s : Store) :
    (ReputationRegistry.updateAgentStats k agent score ts s).agents
      = s.agents.save k
          { agent with
            totalFeedback := agent.totalFeedback + 1,
            lastActivity := ts, updatedAt := ts } := rfl

/-- Stats record written by `updateAgentStats`, in load-or-create form. -/
theorem updateAgentStats_agentStats (k : String) (agent : Agent) (score ts : Int) (s : Store) :
    (ReputationRegistry.updateAgentStats k agent score ts s).agentStats
      = s.agentStats.save k
          (let stats0 :=
            (s.agentStats k).getD
              { agent := k, totalFeedback := 0, averageScore := 0,
                scoreDistribution := fun _ => 0, totalValidations := 0,
                completedValidations := 0, averageValidationScore := 0,
                lastActivity := ts, updatedAt := 0 };
          { agent := stats0.agent,
            totalFeedback := stats0.totalFeedback + 1,
            averageScore := (stats0.averageScore * ((stats0.totalFeedback + 1 - 1 : Int) : ℚ)
                + (score : ℚ)) / ((stats0.totalFeedback + 1 : Int) : ℚ),
            scoreDistribution := Function.update stats0.scoreDistribution (bucketIndex score)
                (stats0.scoreDistribution (bucketIndex score) + 1),
            totalValidations := stats0.totalValidations,
            completedValidations := stats0.completedValidations,
            averageValidationScore := stats0.averageValidationScore,
            lastActivity := ts, updatedAt := ts }) := by
  rcases hst : s.agentStats k with _ | st <;>
    simp [ReputationRegistry.updateAgentStats, hst]

theorem statsTF_getD (s : Store) (k : String) (ts : Int) :
    ((s.agentStats k).getD
        { agent := k, totalFeedback := 0, averageScore := 0,
          scoreDistribution := fun _ => 0, totalValidations := 0,
          completedValidations := 0, averageValidationScore := 0,
          lastActivity := ts, updatedAt := 0 }).totalFeedback = statsTF s k := by
  rcases hst : s.agentStats k with _ | st <;> simp [statsTF, hst]

theorem statsAvg_getD (s : Store) (k : String) (ts : Int) :
    ((s.agentStats k).getD
        { agent := k, totalFeedback := 0, averageScore := 0,
          scoreDistribution := fun _ => 0, totalValidations := 0,
          completedValidations := 0, averageValidationScore := 0,
          lastActivity := ts, updatedAt := 0 }).averageScore = statsAvg s k := by
  rcases hst : s.agentStats k with _ | st <;> simp [statsAvg, hst]

theorem statsDist_getD (s : Store) (k : String) (ts : Int) :
    ((s.agentStats k).getD
        { agent := k, totalFeedback := 0, averageScore := 0,
          scoreDistribution := fun _ => 0, totalValidations := 0,
          completedValidations := 0, averageValidationScore := 0,
          lastActivity := ts, updatedAt := 0 }).scoreDistribution = statsDist s k := by
  rcases hst : s.agentStats k with _ | st <;> simp [statsDist, hst]

/-- One NewFeedback event moves the statistics invariant forward by one
processed score. -/
theorem newFeedback_statsInv (cfg : Config) (c aid : Int) (client : String) (score : Int)
    (t1 t2 uri fHash tx : String) (ts : Int) (done : List Int) (s : Store)
    (h : StatsInv (mkAgentKey c aid) done s) :
    StatsInv (mkAgentKey c aid) (done ++ [score])
      ((ReputationRegistry.handleNewFeedback cfg c aid client score t1 t2 uri fHash tx ts
        s).1) := by
  obtain ⟨⟨a0, ha, hatf⟩, hTF, hAvg, hDist, hSome⟩ := h
  have hALook : ((ReputationRegistry.handleNewFeedback cfg c aid client score t1 t2 uri fHash
        tx ts s).1).agents (mkAgentKey c aid)
      = some
          { a0 with
            totalFeedback := a0.totalFeedback + 1,
            lastActivity := ts, updatedAt := ts } := by
    simp only [ReputationRegistry.handleNewFeedback, ha, updR_agents, updateAgentStats_agents,
      scheduleFeedbackFetch_agents, Table.save]
    simp
  have hLook : ((ReputationRegistry.handleNewFeedback cfg c aid client score t1 t2 uri fHash
        tx ts s).1).agentStats
      = s.agentStats.save (mkAgentKey c aid)
          (let stats0 :=
            (s.agentStats (mkAgentKey c aid)).getD
              { agent := mkAgentKey c aid, totalFeedback := 0, averageScore := 0,
                scoreDistribution := fun _ => 0, totalValidations := 0,
                completedValidations := 0, averageValidationScore := 0,
                lastActivity := ts, updatedAt := 0 };
          { agent := stats0.agent,
            totalFeedback := stats0.totalFeedback + 1,
            averageScore := (stats0.averageScore * ((stats0.totalFeedback + 1 - 1 : Int) : ℚ)
                + (score : ℚ)) / ((stats0.totalFeedback + 1 : Int) : ℚ),
            scoreDistribution := Function.update stats0.scoreDistribution (bucketIndex score)
                (stats0.scoreDistribution (bucketIndex score) + 1),
            totalValidations := stats0.totalValidations,
            completedValidations := stats0.completedValidations,
            averageValidationScore := stats0.averageValidationScore,
            lastActivity := ts, updatedAt := ts }) := by
    simp only [ReputationRegistry.handleNewFeedback, ha, updR_agentStats,
      updateAgentStats_agentStats, scheduleFeedbackFetch_agentStats]
  have hSLook : ((ReputationRegistry.handleNewFeedback cfg c aid client score t1 t2 uri fHash
        tx ts s).1).agentStats (mkAgentKey c aid)
      = some
          (let stats0 :=
            (s.agentStats (mkAgentKey c aid)).getD
              { agent := mkAgentKey c aid, totalFeedback := 0, averageScore := 0,
                scoreDistribution := fun _ => 0, totalValidations := 0,
                completedValidations := 0, averageValidationScore := 0,
                lastActivity := ts, updatedAt := 0 };
          { agent := stats0.agent,
            totalFeedback := stats0.totalFeedback + 1,
            averageScore := (stats0.averageScore * ((stats0.totalFeedback + 1 - 1 : Int) : ℚ)
                + (score : ℚ)) / ((stats0.totalFeedback + 1 : Int) : ℚ),
            scoreDistribution := Function.update stats0.scoreDistribution (bucketIndex score)
                (stats0.scoreDistribution (bucketIndex score) + 1),
            totalValidations := stats0.totalValidations,
            completedValidations := stats0.completedValidations,
            averageValidationScore := stats0.averageValidationScore,
            lastActivity := ts, updatedAt := ts }) := by
    rw [hLook, Table.save_self]
  refine ⟨⟨_, hALook, ?_⟩, ?_, ?_, ?_, ?_⟩
  · show a0.totalFeedback + 1 = ((done ++ [score]).length : ℤ)
    rw [hatf]
    simp [List.length_append]
  · show statsTF _ _ = _
    simp only [statsTF, hSLook, Option.map_some', Option.getD_some]
    rw [statsTF_getD, hTF]
    simp [List.length_append]
  · show statsAvg _ _ * _ = _
    simp only [statsAvg, hSLook, Option.map_some', Option.getD_some]
    rw [statsAvg_getD, statsTF_getD, hTF]
    have hc : (((done.length : ℤ) : ℚ) + 1) ≠ 0 := by positivity
    have hlen : (((done ++ [score]).length : ℕ) : ℚ) = ((done.length : ℤ) : ℚ) + 1 := by
      push_cast [List.length_append, List.length_singleton]
      ring
    have hsimp : (((done.length : ℤ) + 1 - 1 : ℤ) : ℚ) = ((done.length : ℤ) : ℚ) := by
      push_cast
      ring
    have hcast : (((done.length : ℤ) + 1 : ℤ) : ℚ) = ((done.length : ℤ) : ℚ) + 1 := by
      push_cast
      ring
    rw [hlen, hsimp, hcast, div_mul_cancel₀ _ hc]
    have hAvg2 : statsAvg s (mkAgentKey c aid) * (((done.length : ℤ) : ℚ))
        = (done.map fun x : Int => (x : ℚ)).sum := by
      rw [show (((done.length : ℤ) : ℚ)) = ((done.length : ℕ) : ℚ) from by push_cast; ring]
      exact hAvg
    rw [hAvg2]
    simp
  · intro i
    show statsDist _ _ i = _
    simp only [statsDist, hSLook, Option.map_some', Option.getD_some]
    rw [statsDist_getD]
    rw [Function.update_apply]
    rcases eq_or_ne i (bucketIndex score) with hi | hi
    · rw [if_pos hi, hDist]
      subst hi
      simp [List.filter_append]
    · rw [if_neg hi, hDist]
      have hns : (bucketIndex score = i) = False := by
        simp [Ne.symm hi]
      simp [List.filter_append, hns]
  · intro _
    rw [hSLook]
    rfl

/-- Replaying a list of NewFeedback events preserves the statistics
invariant, extending the processed-score list. -/
theorem runNewFeedbacks_statsInv (cfg : Config) (chainId agentId : Int)
    (evs : List FeedbackEv) (done : List Int) (s : Store)
    (h : StatsInv (mkAgentKey chainId agentId) done s) :
    StatsInv (mkAgentKey chainId agentId) (done ++ evs.map FeedbackEv.score)
      (runNewFeedbacks cfg chainId agentId evs s) := by
  induction evs generalizing done s with
  | nil => simpa using h
  | cons e rest ih =>
      have h1 := newFeedback_statsInv cfg chainId agentId e.clientAddress e.score e.tag1 e.tag2
        e.feedbackUri e.feedbackHash e.txHash e.timestamp done s h
      have h2 := ih (done ++ [e.score]) _ h1
      simpa [List.append_assoc] using h2

/-- Every score lands in exactly one of the five buckets, so the per-bucket
counts add up to the number of scores. -/
theorem sum_bucket_filter_length (l : List Int) :
    (∑ i : Fin 5, (((l.filter fun x => bucketIndex x = i).length : ℤ))) = (l.length : ℤ) := by
  induction l with
  | nil => simp
  | cons x l ih =>
      have hstep : ∀ i : Fin 5, (((x :: l).filter fun y => bucketIndex y = i).length : ℤ)
          = ((l.filter fun y => bucketIndex y = i).length : ℤ)
            + (if bucketIndex x = i then 1 else 0) := by
        intro i
        rcases eq_or_ne (bucketIndex x) i with hi | hi
        · simp [List.filter_cons, hi]
        · simp [List.filter_cons, hi]
      rw [Finset.sum_congr rfl (fun i _ => hstep i)]
      rw [Finset.sum_add_distrib, ih]
      simp [Finset.sum_ite_eq]

/-- C1: replaying any non-empty sequence of NewFeedback events for an
existing agent with no prior feedback, `AgentStats.averageScore` is exactly
the arithmetic mean of the submitted scores (exact rational/decimal
arithmetic), each histogram bucket holds the number of scores whose
`bucketIndex` selects it, the five buckets sum to the number of events, and
the bucket boundaries put a score of 20 in bucket 0 and 21 in bucket 1. -/
theorem newFeedback_average_and_histogram (cfg : Config) (chainId agentId : Int)
    (evs : List FeedbackEv) (s0 : Store) (a : Agent)
    (ha : s0.agents (mkAgentKey chainId agentId) = some a)
    (ha0 : a.totalFeedback = 0)
    (hst : s0.agentStats (mkAgentKey chainId agentId) = none)
    (hne : evs ≠ []) :
    ∃ st, (runNewFeedbacks cfg chainId agentId evs s0).agentStats (mkAgentKey chainId agentId)
        = some st
      ∧ st.averageScore
          = ((evs.map fun e => ((e.score : ℚ))).sum) / ((evs.length : ℚ))
      ∧ (∑ i : Fin 5, st.scoreDistribution i) = (evs.length : ℤ)
      ∧ (∀ i, st.scoreDistribution i
          = (((evs.map FeedbackEv.score).filter fun x => bucketIndex x = i).length : ℤ))
      ∧ bucketIndex 20 = 0 ∧ bucketIndex 21 = 1 := by
  have hbase : StatsInv (mkAgentKey chainId agentId) [] s0 := by
    refine ⟨⟨a, ha, by simpa using ha0⟩, ?_, ?_, ?_, ?_⟩
    · simp [statsTF, hst]
    · simp [statsAvg, hst]
    · intro i
      simp [statsDist, hst]
    · intro hcon
      exact absurd rfl hcon
  have hinv := runNewFeedbacks_statsInv cfg chainId agentId evs [] s0 hbase
  rw [List.nil_append] at hinv
  obtain ⟨⟨a1, ha1, hatf⟩, hTF, hAvg, hDist, hSome⟩ := hinv
  have hne2 : evs.map FeedbackEv.score ≠ [] := by
    simpa using hne
  obtain ⟨st, hs⟩ := Option.isSome_iff_exists.mp (hSome hne2)
  refine ⟨st, hs, ?_, ?_, ?_, by decide, by decide⟩
  · have hAvg1 : st.averageScore * ((evs.map FeedbackEv.score).length : ℚ)
        = ((evs.map FeedbackEv.score).map fun x : Int => (x : ℚ)).sum := by
      simpa [statsAvg, hs] using hAvg
    have hlenne : (((evs.map FeedbackEv.score).length : ℕ) : ℚ) ≠ 0 :=
      Nat.cast_ne_zero.mpr (Nat.pos_iff_ne_zero.mp (List.length_pos.mpr hne2))
    rw [eq_div_iff (by simpa using hlenne)]
    have hmm : ((evs.map FeedbackEv.score).map fun x : Int => (x : ℚ)).sum
        = (evs.map fun e => ((e.score : ℚ))).sum := by
      simp only [List.map_map]
      rfl
    have hll : ((evs.map FeedbackEv.score).length : ℚ) = (evs.length : ℚ) := by
      simp
    rw [← hmm, ← hll]
    exact hAvg1
  · have hD : ∀ i, st.scoreDistribution i
        = (((evs.map FeedbackEv.score).filter fun x => bucketIndex x = i).length : ℤ) := by
      intro i
      have := hDist i
      simpa [statsDist, hs] using this
    calc (∑ i : Fin 5, st.scoreDistribution i)
        = ∑ i : Fin 5, (((evs.map FeedbackEv.score).filter
            fun x => bucketIndex x = i).length : ℤ) := by
          exact Finset.sum_congr rfl (fun i _ => hD i)
      _ = ((evs.map FeedbackEv.score).length : ℤ) := sum_bucket_filter_length _
      _ = (evs.length : ℤ) := by simp
  · intro i
    have := hDist i
    simpa [statsDist, hs] using this

/-- Witness for `newFeedback_average_and_histogram` with two feedbacks of
scores 10 and 30 for the registered agent of `storeWithAgent`. -/
theorem newFeedback_average_and_histogram_witness :
    ∃ st, (runNewFeedbacks cfg0 11 1
        ([⟨"0xclient", 10, "", "", "", "", "0xtx", 6⟩,
          ⟨"0xclient", 30, "", "", "", "", "0xtx", 7⟩] : List FeedbackEv)
        storeWithAgent).agentStats (mkAgentKey 11 1) = some st
      ∧ st.averageScore
          = ((([⟨"0xclient", 10, "", "", "", "", "0xtx", 6⟩,
               ⟨"0xclient", 30, "", "", "", "", "0xtx", 7⟩] : List FeedbackEv).map
                fun e => ((e.score : ℚ))).sum)
            / ((([⟨"0xclient", 10, "", "", "", "", "0xtx", 6⟩,
                 ⟨"0xclient", 30, "", "", "", "", "0xtx", 7⟩] : List FeedbackEv).length : ℚ))
      ∧ (∑ i : Fin 5, st.scoreDistribution i)
          = (([⟨"0xclient", 10, "", "", "", "", "0xtx", 6⟩,
              ⟨"0xclient", 30, "", "", "", "", "0xtx", 7⟩] : List FeedbackEv).length : ℤ)
      ∧ (∀ i, st.scoreDistribution i
          = (((([⟨"0xclient", 10, "", "", "", "", "0xtx", 6⟩,
                ⟨"0xclient", 30, "", "", "", "", "0xtx", 7⟩] : List FeedbackEv).map
                  FeedbackEv.score).filter fun x => bucketIndex x = i).length : ℤ))
      ∧ bucketIndex 20 = 0 ∧ bucketIndex 21 = 1 :=
  newFeedback_average_and_histogram cfg0 11 1
    ([⟨"0xclient", 10, "", "", "", "", "0xtx", 6⟩,
      ⟨"0xclient", 30, "", "", "", "", "0xtx", 7⟩] : List FeedbackEv)
    storeWithAgent agent0 rfl rfl rfl (List.cons_ne_nil _ _)
